import Mathlib

/-!
# RescueBox API: reservation and stock lifecycle, access, catalog and accounts

A shallow embedding of `src/routes/reservas.js` and `src/middleware/auth.js`, of the
box routes of `src/routes/boxes.js` and `src/routes/store.js`, and of the account
routes of `src/routes/auth.js` and `src/routes/admin.js`.

The relational store is a record of tables (lists of rows).  SQL statements are
functions on that record, route handlers are functions from a database state
and a request to a new database state and an HTTP response.  A statement that
throws is modelled by a fault index: the queries of a handler are numbered in
execution order from `0`, and `fault = some k` makes query `k` throw.  The store
lookup of the auth middleware is a query of its own, which throws when the flag
`lookupFails` is set.

Request fields are modelled at their intended JSON types: `box_id` and path
ids are natural numbers, `franja_horaria` is a string; a field that is absent
from the body is `none`.
-/

set_option autoImplicit false

namespace RescueBox

/-! ## Data model -/

/-- Values of column `reservas.estado`. -/
inductive Estado where
  | pendiente
  | retirado
  | cancelado
deriving DecidableEq, Repr

/-- Row of table `boxes` (the columns read or written by the reservation routes).
`store_id` is NULL in a box that `POST /api/boxes` created for a store account
without store: that route inserts `req.user.store_id` as it is. -/
structure Box where
  id : Nat
  store_id : Option Nat
  stock : Int
deriving DecidableEq, Repr

/-- Row of table `reservas`. -/
structure Reserva where
  id : Nat
  user_id : Nat
  box_id : Nat
  franja_horaria : String
  qr_code : String
  estado : Estado
deriving DecidableEq, Repr

/-- Row of table `stores` (the columns read by the auth middleware). -/
structure Store where
  id : Nat
  user_id : Nat
deriving DecidableEq, Repr

/-- Database state: the three tables and the AUTO_INCREMENT counter of `reservas`. -/
structure Db where
  boxes : List Box
  reservas : List Reserva
  stores : List Store
  nextReservaId : Nat
deriving DecidableEq, Repr

/-- Field `store_id` of a token payload: absent, `null` (what the login route signs
for an account without store), or a number. -/
inductive StoreRef where
  | undefined
  | null
  | num (n : Nat)
deriving DecidableEq, Repr

/-- Decoded token payload, attached to the request as `req.user`. -/
structure Payload where
  id : Nat
  role : String
  store_id : StoreRef
deriving DecidableEq, Repr

/-- JSON body of `POST /api/reservas`. -/
structure ReqBody where
  box_id : Option Nat
  franja_horaria : Option String
deriving DecidableEq, Repr

/-- JSON bodies sent by the reservation routes and the auth middleware. -/
inductive ResBody where
  | error (error : String)
  | message (message : String)
  | creada (id : Nat) (qr_code : String) (message : String)
deriving DecidableEq, Repr

/-- HTTP response: status code and JSON body. -/
structure Response where
  status : Nat
  body : ResBody
deriving DecidableEq, Repr

/-- Index of the query that throws, if any. -/
abbrev Fault := Option Nat

/-- Modelled from the spec: the schema of table `reservas` is not among the
sources; a row inserted without `estado` starts in state `pendiente`. -/
def estadoInicial : Estado := Estado.pendiente

/-! ## JavaScript truthiness of the request fields -/

/-- `!box_id` for an absent or numeric `box_id`. -/
def falsyNum : Option Nat → Bool
  | none => true
  | some n => n == 0

/-- `!payload.store_id`. -/
def falsyRef : StoreRef → Bool
  | StoreRef.undefined => true
  | StoreRef.null => true
  | StoreRef.num n => n == 0

/-- `reserva.store_id !== storeId` between the nullable column `boxes.store_id` and
the `store_id` of the payload: NULL equals `null` only, a number equals that number
only. -/
def storeDistinto (columna : Option Nat) (storeId : StoreRef) : Bool :=
  match columna, storeId with
  | some a, StoreRef.num b => a != b
  | none, StoreRef.null => false
  | _, _ => true

/-- `!franja_horaria` for an absent or string field. -/
def falsyStr : Option String → Bool
  | none => true
  | some s => s == ""

/-! ## SQL statements -/

/-- Outcome of query number `k`: it throws when the fault index is `k`. -/
def query {α : Type} (fault : Fault) (k : Nat) (result : α) : Option α :=
  if fault = some k then none else some result

/-- `SELECT stock FROM boxes WHERE id = ?`. -/
def selectStock (db : Db) (box_id : Nat) : List Int :=
  (db.boxes.filter (fun b => b.id == box_id)).map (fun b => b.stock)

/-- `INSERT INTO reservas (user_id, box_id, franja_horaria, qr_code) VALUES (?,?,?,?)`,
returning the new state and `insertId`. -/
def insertReserva (db : Db) (user_id box_id : Nat) (franja_horaria qr_code : String) : Db × Nat :=
  ({ db with
      reservas := db.reservas ++
        [{ id := db.nextReservaId, user_id := user_id, box_id := box_id,
           franja_horaria := franja_horaria, qr_code := qr_code, estado := estadoInicial }],
      nextReservaId := db.nextReservaId + 1 },
   db.nextReservaId)

/-- `UPDATE boxes SET stock = stock + delta WHERE id = ?` (delta is `-1` or `1`). -/
def updateStock (db : Db) (box_id : Nat) (delta : Int) : Db :=
  { db with
    boxes := db.boxes.map (fun b => if b.id = box_id then { b with stock := b.stock + delta } else b) }

/-- `UPDATE reservas SET estado = ? WHERE id = ?`. -/
def updateEstado (db : Db) (id : Nat) (e : Estado) : Db :=
  { db with
    reservas := db.reservas.map (fun r => if r.id = id then { r with estado := e } else r) }

/-- `SELECT r.*, b.store_id FROM reservas r JOIN boxes b ON r.box_id = b.id WHERE r.id = ?`. -/
def selectReservaStore (db : Db) (id : Nat) : List (Reserva × Option Nat) :=
  (db.reservas.filter (fun r => r.id == id)).flatMap
    (fun r => (db.boxes.filter (fun b => b.id == r.box_id)).map (fun b => (r, b.store_id)))

/-- `SELECT * FROM reservas WHERE id = ? AND user_id = ? AND estado = 'pendiente'`. -/
def selectCancelable (db : Db) (id user_id : Nat) : List Reserva :=
  db.reservas.filter
    (fun r => r.id == id && r.user_id == user_id && decide (r.estado = Estado.pendiente))

/-- `SELECT id FROM stores WHERE user_id=?`. -/
def selectStoreIds (db : Db) (user_id : Nat) : List Nat :=
  (db.stores.filter (fun s => s.user_id == user_id)).map (fun s => s.id)

/-! ## The auth middleware -/

/-- Pieces of a string between single spaces, as `split(" ")` returns them. -/
def splitSpaces : List Char → List (List Char)
  | [] => [[]]
  | c :: cs =>
    match splitSpaces cs with
    | [] => if c = ' ' then [[], []] else [[c]]
    | p :: ps => if c = ' ' then [] :: p :: ps else (c :: p) :: ps

/-- `header.split(" ")[1]`. -/
def bearerToken (header : String) : Option String :=
  ((splitSpaces header.data).get? 1).map String.mk

/-- Store lookup of the middleware: a store-role payload without `store_id` gets
the id of the first store of that user, when there is one.  The lookup is a query:
with `lookupFails` it throws, which is the result `none`. -/
def resolveStore (db : Db) (lookupFails : Bool) (payload : Payload) : Option Payload :=
  if payload.role = "store" ∧ falsyRef payload.store_id = true then
    if lookupFails then none
    else
      match selectStoreIds db payload.id with
      | [] => some payload
      | sid :: _ => some { payload with store_id := StoreRef.num sid }
  else some payload

/-- `auth(roleAllowed)`: either the response it sends, or the payload attached to
the request when control passes to the route handler.  `verify` is the token
verification, which fails with `none`.  Verification and store lookup run in the
same `try`, whose `catch` answers 401. -/
def auth (verify : String → Option Payload) (roleAllowed : List String) (db : Db)
    (lookupFails : Bool) (header : Option String) : Except Response Payload :=
  match header with
  | none => Except.error ⟨401, ResBody.error "Token no proporcionado"⟩
  | some h =>
    if h = "" then Except.error ⟨401, ResBody.error "Token no proporcionado"⟩
    else
      match (bearerToken h).bind verify with
      | none => Except.error ⟨401, ResBody.error "Token inválido o expirado"⟩
      | some payload =>
        match resolveStore db lookupFails payload with
        | none => Except.error ⟨401, ResBody.error "Token inválido o expirado"⟩
        | some user =>
          if roleAllowed.length ≠ 0 ∧ ¬ user.role ∈ roleAllowed then
            Except.error ⟨403, ResBody.error "No tienes permisos"⟩
          else Except.ok user

/-! ## Route handlers of `routes/reservas.js` -/

/-- The pickup token: user id, box id and timestamp joined by dashes. -/
def qrPayload (userId box_id now : Nat) : String :=
  toString userId ++ "-" ++ toString box_id ++ "-" ++ toString now

/-- Transaction of the create handler: insert (query 1), then decrement (query 2).
The result is the state to commit and `insertId`, or `none` when a statement threw. -/
def crearTx (fault : Fault) (db : Db) (userId box_id : Nat) (franja_horaria qr : String) :
    Option (Db × Nat) :=
  match query fault 1 (insertReserva db userId box_id franja_horaria qr) with
  | none => none
  | some (db1, insertId) =>
    match query fault 2 (updateStock db1 box_id (-1)) with
    | none => none
    | some db2 => some (db2, insertId)

/-- Handler of `POST /api/reservas`; `now` is the value of `Date.now()`. -/
def crearReserva (fault : Fault) (now : Nat) (db : Db) (user : Payload) (body : ReqBody) :
    Db × Response :=
  if falsyNum body.box_id || falsyStr body.franja_horaria then
    (db, ⟨400, ResBody.error "Faltan campos obligatorios"⟩)
  else
    let box_id := body.box_id.getD 0
    let franja_horaria := body.franja_horaria.getD ""
    match query fault 0 (selectStock db box_id) with
    | none => (db, ⟨500, ResBody.error "Error al crear reserva"⟩)
    | some [] => (db, ⟨404, ResBody.error "Caja no encontrada"⟩)
    | some (stock :: _) =>
      if stock ≤ 0 then (db, ⟨409, ResBody.error "Sin stock disponible"⟩)
      else
        let qr := qrPayload user.id box_id now
        match crearTx fault db user.id box_id franja_horaria qr with
        | some (db2, insertId) =>
          (db2, ⟨200, ResBody.creada insertId qr "Reserva creada correctamente"⟩)
        | none => (db, ⟨500, ResBody.error "Error al crear reserva"⟩)

/-- Handler of `POST /api/reservas/:id/validar`. -/
def validarReserva (fault : Fault) (db : Db) (user : Payload) (id : Nat) : Db × Response :=
  match query fault 0 (selectReservaStore db id) with
  | none => (db, ⟨500, ResBody.error "Error al validar reserva"⟩)
  | some [] => (db, ⟨404, ResBody.error "Reserva no encontrada"⟩)
  | some (reserva :: _) =>
    if storeDistinto reserva.2 user.store_id then
      (db, ⟨403, ResBody.error "No autorizado para validar esta reserva"⟩)
    else
      match query fault 1 (updateEstado db id Estado.retirado) with
      | none => (db, ⟨500, ResBody.error "Error al validar reserva"⟩)
      | some db1 => (db1, ⟨200, ResBody.message "Reserva validada y marcada como retirada"⟩)

/-- Transaction of the cancel handler: state update (query 1), then stock
increment (query 2). -/
def cancelarTx (fault : Fault) (db : Db) (id box_id : Nat) : Option Db :=
  match query fault 1 (updateEstado db id Estado.cancelado) with
  | none => none
  | some db1 => query fault 2 (updateStock db1 box_id 1)

/-- Handler of `PATCH /api/reservas/:id/cancelar`. -/
def cancelarReserva (fault : Fault) (db : Db) (user : Payload) (id : Nat) : Db × Response :=
  match query fault 0 (selectCancelable db id user.id) with
  | none => (db, ⟨500, ResBody.error "Error al cancelar reserva"⟩)
  | some [] => (db, ⟨404, ResBody.error "Reserva no encontrada o no cancelable"⟩)
  | some (reserva :: _) =>
    match cancelarTx fault db id reserva.box_id with
    | some db2 => (db2, ⟨200, ResBody.message "Reserva cancelada correctamente"⟩)
    | none => (db, ⟨500, ResBody.error "Error al cancelar reserva"⟩)

/-! ## Requests run one after another -/

/-- A request to one of the three state-changing reservation routes: its header, its
arguments, the fault index for the queries of the handler, and whether the store
lookup of the middleware throws. -/
inductive Request where
  | crear (header : Option String) (body : ReqBody) (now : Nat) (fault : Fault)
      (lookupFails : Bool)
  | validar (header : Option String) (id : Nat) (fault : Fault) (lookupFails : Bool)
  | cancelar (header : Option String) (id : Nat) (fault : Fault) (lookupFails : Bool)
deriving DecidableEq, Repr

/-- A route: the auth middleware with its allow-list, then the handler. -/
def route (verify : String → Option Payload) (roleAllowed : List String) (db : Db)
    (lookupFails : Bool) (header : Option String) (handler : Payload → Db × Response) :
    Db × Response :=
  match auth verify roleAllowed db lookupFails header with
  | Except.error res => (db, res)
  | Except.ok user => handler user

/-- One request served to completion. -/
def step (verify : String → Option Payload) (db : Db) : Request → Db × Response
  | Request.crear header body now fault lookupFails =>
    route verify ["user"] db lookupFails header
      (fun user => crearReserva fault now db user body)
  | Request.validar header id fault lookupFails =>
    route verify ["store"] db lookupFails header
      (fun user => validarReserva fault db user id)
  | Request.cancelar header id fault lookupFails =>
    route verify ["user"] db lookupFails header
      (fun user => cancelarReserva fault db user id)

/-- Requests served one after another, no interleaving. -/
def run (verify : String → Option Payload) (db : Db) : List Request → Db
  | [] => db
  | req :: reqs => run verify (step verify db req).1 reqs

/-! ## Observations on a database state -/

/-- Stock of the box with the given id (first matching row). -/
def stockOf (db : Db) (box_id : Nat) : Option Int :=
  (selectStock db box_id).head?

/-- A reservation of the given box in state `pendiente` or `retirado`. -/
def esActiva (box_id : Nat) (r : Reserva) : Bool :=
  r.box_id == box_id && decide (r.estado ≠ Estado.cancelado)

/-- Number of reservations of a box in state `pendiente` or `retirado`. -/
def activas (db : Db) (box_id : Nat) : Nat :=
  db.reservas.countP (esActiva box_id)

/-- Number of reservations of a box in state `cancelado`. -/
def canceladas (db : Db) (box_id : Nat) : Nat :=
  db.reservas.countP (fun r => r.box_id == box_id && decide (r.estado = Estado.cancelado))

/-- Stock of a box plus the number of its reservations that hold a unit. -/
def saldo (db : Db) (box_id : Nat) : Option Int :=
  (stockOf db box_id).map (fun s => s + (activas db box_id : Int))

/-- The request is a create or a cancel. -/
def Request.crearOCancelar : Request → Bool
  | Request.crear _ _ _ _ _ => true
  | Request.validar _ _ _ _ => false
  | Request.cancelar _ _ _ _ => true

/-- Primary key of table `reservas`: ids are pairwise distinct. -/
def ReservaKeys (db : Db) : Prop :=
  (db.reservas.map (fun r => r.id)).Nodup

/-- AUTO_INCREMENT of table `reservas`: every id in use is below the counter. -/
def AutoIncrement (db : Db) : Prop :=
  ∀ r ∈ db.reservas, r.id < db.nextReservaId

/-- Primary key of table `boxes`: ids are pairwise distinct. -/
def BoxKeys (db : Db) : Prop :=
  (db.boxes.map (fun b => b.id)).Nodup

/-! ## Sample data -/

/-- Token verification accepting two tokens: a user and a store owner. -/
def verifyDemo (token : String) : Option Payload :=
  if token = "u" then some ⟨1, "user", StoreRef.null⟩
  else if token = "s" then some ⟨2, "store", StoreRef.null⟩
  else none

/-- One store owned by user 2, one box of that store with stock 1, no reservations. -/
def dbDemo : Db :=
  { boxes := [⟨1, some 1, 1⟩], reservas := [], stores := [⟨1, 2⟩], nextReservaId := 1 }

/-- Sample database with the single reservation of box 1 already cancelled. -/
def dbCancelada : Db :=
  { boxes := [⟨1, some 1, 1⟩],
    reservas := [⟨1, 1, 1, "10-11", "1-1-5", Estado.cancelado⟩],
    stores := [⟨1, 2⟩],
    nextReservaId := 2 }

/-- A create by the sample user, then a cancel of reservation 1 by the same user. -/
def crearYCancelar : List Request :=
  [Request.crear (some "Bearer u") ⟨some 1, some "10-11"⟩ 5 none false,
   Request.cancelar (some "Bearer u") 1 none false]

/-- The sample database after its only unit was reserved by user 1. -/
def dbAgotado : Db :=
  { boxes := [⟨1, some 1, 0⟩],
    reservas := [⟨1, 1, 1, "10-11", "1-1-5", Estado.pendiente⟩],
    stores := [⟨1, 2⟩],
    nextReservaId := 2 }

/-! ## Create requests whose steps interleave -/

/-- Outcome of the first part of the create handler, up to the stock check: the
response it sends, or the values the transaction will run with. -/
inductive Chequeo where
  | responde (res : Response)
  | pasa (userId box_id : Nat) (franja_horaria qr : String)
deriving DecidableEq, Repr

/-- First part of the create handler: field check, stock lookup (query 0), stock check
and token generation. -/
def crearChequeo (fault : Fault) (now : Nat) (db : Db) (user : Payload) (body : ReqBody) :
    Chequeo :=
  if falsyNum body.box_id || falsyStr body.franja_horaria then
    Chequeo.responde ⟨400, ResBody.error "Faltan campos obligatorios"⟩
  else
    let box_id := body.box_id.getD 0
    let franja_horaria := body.franja_horaria.getD ""
    match query fault 0 (selectStock db box_id) with
    | none => Chequeo.responde ⟨500, ResBody.error "Error al crear reserva"⟩
    | some [] => Chequeo.responde ⟨404, ResBody.error "Caja no encontrada"⟩
    | some (stock :: _) =>
      if stock ≤ 0 then Chequeo.responde ⟨409, ResBody.error "Sin stock disponible"⟩
      else Chequeo.pasa user.id box_id franja_horaria (qrPayload user.id box_id now)

/-- Second part of the create handler: the transaction, run on the database state
current when it starts, and the response. -/
def crearTransaccion (fault : Fault) (db : Db) (userId box_id : Nat)
    (franja_horaria qr : String) : Db × Response :=
  match crearTx fault db userId box_id franja_horaria qr with
  | some (db2, insertId) =>
    (db2, ⟨200, ResBody.creada insertId qr "Reserva creada correctamente"⟩)
  | none => (db, ⟨500, ResBody.error "Error al crear reserva"⟩)

/-- A create request in flight: not started, past the stock check, or answered. -/
inductive Hilo where
  | inicio (user : Payload) (body : ReqBody) (now : Nat) (fault : Fault)
  | chequeado (fault : Fault) (userId box_id : Nat) (franja_horaria qr : String)
  | fin (res : Response)
deriving DecidableEq, Repr

/-- One step of a create request on the current database state. -/
def avanzar (db : Db) : Hilo → Db × Hilo
  | Hilo.inicio user body now fault =>
    match crearChequeo fault now db user body with
    | Chequeo.responde res => (db, Hilo.fin res)
    | Chequeo.pasa userId box_id franja_horaria qr =>
      (db, Hilo.chequeado fault userId box_id franja_horaria qr)
  | Hilo.chequeado fault userId box_id franja_horaria qr =>
    ((crearTransaccion fault db userId box_id franja_horaria qr).1,
     Hilo.fin (crearTransaccion fault db userId box_id franja_horaria qr).2)
  | Hilo.fin res => (db, Hilo.fin res)

/-- The database and the create requests in flight. -/
structure Config where
  db : Db
  hilos : List Hilo
deriving DecidableEq, Repr

/-- The request number `i` takes its next step. -/
def paso (c : Config) (i : Nat) : Config :=
  match c.hilos.get? i with
  | none => c
  | some h => ⟨(avanzar c.db h).1, c.hilos.set i (avanzar c.db h).2⟩

/-- An execution: the requests take steps in the order of the plan. -/
def ejecutar (c : Config) : List Nat → Config
  | [] => c
  | i :: plan => ejecutar (paso c i) plan

/-- The request is past the stock check and has not run its transaction. -/
def Hilo.esChequeado : Hilo → Bool
  | Hilo.chequeado _ _ _ _ _ => true
  | _ => false

/-- Status of the response of an answered request. -/
def Hilo.status : Hilo → Option Nat
  | Hilo.fin res => some res.status
  | _ => none

/-- Two users ask for the only unit of box 1 of the sample database. -/
def carreraDemo : Config :=
  { db := dbDemo,
    hilos := [Hilo.inicio ⟨1, "user", StoreRef.null⟩ ⟨some 1, some "10-11"⟩ 5 none,
              Hilo.inicio ⟨3, "user", StoreRef.null⟩ ⟨some 1, some "10-11"⟩ 6 none] }

/-! ## Catalog: products, boxes and the lines of a box

Model of `routes/boxes.js` and of the box routes of `routes/store.js`.  Prices and
quantities are exact rationals, on which `parseFloat` and `Number` are the
identity.  Of table `boxes` the catalog routes use other columns than the
reservation routes, so its rows are modelled here by `Caja`.  Names, descriptions,
opening hours and the flash flag are not modelled, and listings keep table order. -/

/-- Row of table `products`. -/
structure Product where
  id : Nat
  store_id : Nat
  precio : ℚ
deriving DecidableEq, Repr

/-- Row of table `box_products`. -/
structure BoxProduct where
  box_id : Nat
  product_id : Nat
  cantidad : ℚ
deriving DecidableEq, Repr

/-- Row of table `boxes` as the catalog routes use it; `precio_normal` may be NULL. -/
structure Caja where
  id : Nat
  store_id : Option Nat
  precio_normal : Option ℚ
  stock : Int
  fecha_vencimiento : Option Nat
deriving DecidableEq, Repr

/-- Catalog tables and the AUTO_INCREMENT counter of `boxes`. -/
structure Catalogo where
  products : List Product
  cajas : List Caja
  box_products : List BoxProduct
  nextCajaId : Nat
deriving DecidableEq, Repr

/-- One element of `productos` in the body of `POST /boxes`. -/
structure ProductoReq where
  id : Option Nat
  product_id : Option Nat
  cantidad : Option ℚ
deriving DecidableEq, Repr

/-- Body of `POST /boxes` with `productos` already parsed to an array. -/
structure CajaReq where
  stock : Int
  fecha_vencimiento : Option Nat
  productos : List ProductoReq
deriving DecidableEq, Repr

/-- Responses of `POST /boxes`. -/
inductive CajaRes where
  | error (status : Nat) (error : String)
  | creada (id : Nat) (message : String) (precio_normal : ℚ)
deriving DecidableEq, Repr

/-- One element of a box listing: the box and the `precio_normal` reported for it. -/
structure CajaListada where
  id : Nat
  precio_normal : Option ℚ
deriving DecidableEq, Repr

/-- `prod?.id ?? prod?.product_id ?? null`. -/
def getProductId (prod : ProductoReq) : Option Nat :=
  match prod.id with
  | some i => some i
  | none => prod.product_id

/-- `x || 1` for a quantity: absent or zero gives 1. -/
def cantidadO1 : Option ℚ → ℚ
  | none => 1
  | some q => if q = 0 then 1 else q

/-- `parseFloat(x) || alt` for a nullable decimal: NULL or zero gives `alt`. -/
def parseFloatO (x : Option ℚ) (alt : ℚ) : ℚ :=
  match x with
  | none => alt
  | some p => if p = 0 then alt else p

/-- `SELECT precio FROM products WHERE id = ? AND store_id = ?`; a NULL store id
matches no row. -/
def selectPrecio (db : Catalogo) (pid : Nat) (storeId : Option Nat) : List ℚ :=
  (db.products.filter (fun p => p.id == pid && some p.store_id == storeId)).map
    (fun p => p.precio)

/-- `calcularPrecioTotal(productos, storeId)`: the total; the details array that the
version of `boxes.js` also builds is not read by its caller. -/
def calcularPrecioTotal (db : Catalogo) (productos : List ProductoReq)
    (storeId : Option Nat) : ℚ :=
  productos.foldl
    (fun total prod =>
      if falsyNum (getProductId prod) then total
      else
        match selectPrecio db ((getProductId prod).getD 0) storeId with
        | [] => total
        | precio :: _ => total + parseFloatO (some precio) 0 * cantidadO1 prod.cantidad)
    0

/-- The loop of `INSERT INTO box_products (box_id, product_id, cantidad, ...)`. -/
def insertBoxProducts (db : Catalogo) (boxId : Nat) (productos : List ProductoReq) : Catalogo :=
  productos.foldl
    (fun acc prod =>
      if falsyNum (getProductId prod) then acc
      else
        { acc with
          box_products := acc.box_products ++
            [⟨boxId, (getProductId prod).getD 0, cantidadO1 prod.cantidad⟩] })
    db

/-- Handler of `POST /api/boxes` (`boxes.js`) for a caller with the given store id. -/
def crearCaja (db : Catalogo) (storeId : Option Nat) (body : CajaReq) : Catalogo × CajaRes :=
  if body.productos.length = 0 then
    (db, CajaRes.error 400 "Debes agregar al menos un producto")
  else
    let precioNormal := calcularPrecioTotal db body.productos storeId
    let boxId := db.nextCajaId
    let db1 : Catalogo :=
      { db with
        cajas := db.cajas ++
          [⟨boxId, storeId, some precioNormal, body.stock, body.fecha_vencimiento⟩],
        nextCajaId := db.nextCajaId + 1 }
    (insertBoxProducts db1 boxId body.productos,
     CajaRes.creada boxId "Caja creada correctamente" precioNormal)

/-- Lines of a box with the current price of their product: `SELECT ... p.precio,
bp.cantidad FROM box_products bp JOIN products p ON bp.product_id = p.id WHERE
bp.box_id = ?`, as pairs of price and quantity. -/
def selectLineas (db : Catalogo) (box_id : Nat) : List (ℚ × ℚ) :=
  (db.box_products.filter (fun bp => bp.box_id == box_id)).flatMap
    (fun bp => (db.products.filter (fun p => p.id == bp.product_id)).map
      (fun p => (p.precio, bp.cantidad)))

/-- The loop `precio += (parseFloat(p.precio) || 0) * (p.cantidad || 1)`. -/
def precioCalculado (lineas : List (ℚ × ℚ)) : ℚ :=
  lineas.foldl (fun total l => total + parseFloatO (some l.1) 0 * cantidadO1 (some l.2)) 0

/-- `UPDATE boxes SET precio_normal = ? WHERE id = ?`. -/
def updatePrecioNormal (db : Catalogo) (id : Nat) (precio : ℚ) : Catalogo :=
  { db with
    cajas := db.cajas.map
      (fun c => if c.id = id then { c with precio_normal := some precio } else c) }

/-- Body of the loop of `GET /boxes/public`: the state and the listing so far, then
one box of the selection. -/
def cuerpoPublic (acc : Catalogo × List CajaListada) (box : Caja) :
    Catalogo × List CajaListada :=
  let precio := precioCalculado (selectLineas acc.1 box.id)
  match box.precio_normal with
  | none => (updatePrecioNormal acc.1 box.id precio, acc.2 ++ [⟨box.id, some precio⟩])
  | some p => (acc.1, acc.2 ++ [⟨box.id, some (parseFloatO (some p) precio)⟩])

/-- Body of the loop of `GET /boxes` in `boxes.js` and, with the same text, in
`store.js`. -/
def cuerpoTienda (acc : Catalogo × List CajaListada) (box : Caja) :
    Catalogo × List CajaListada :=
  let precio := precioCalculado (selectLineas acc.1 box.id)
  let db1 :=
    match box.precio_normal with
    | none => updatePrecioNormal acc.1 box.id precio
    | some _ => acc.1
  (db1, acc.2 ++ [⟨box.id, some (parseFloatO box.precio_normal precio)⟩])

/-- Selection of `GET /boxes/public`: boxes in stock and not expired at `now`. -/
def selectPublic (now : Nat) (db : Catalogo) : List Caja :=
  db.cajas.filter
    (fun b => decide (0 < b.stock) &&
      (match b.fecha_vencimiento with
       | none => true
       | some f => decide (now ≤ f)))

/-- Selection `WHERE b.store_id = ?`; a NULL store id matches no row. -/
def selectDeTienda (storeId : Option Nat) (db : Catalogo) : List Caja :=
  db.cajas.filter (fun b => b.store_id.isSome && b.store_id == storeId)

/-- Handler of `GET /api/boxes/public`. -/
def boxesPublic (now : Nat) (db : Catalogo) : Catalogo × List CajaListada :=
  (selectPublic now db).foldl cuerpoPublic (db, [])

/-- Handler of `GET /api/boxes` (`boxes.js`). -/
def boxesTienda (storeId : Option Nat) (db : Catalogo) : Catalogo × List CajaListada :=
  (selectDeTienda storeId db).foldl cuerpoTienda (db, [])

/-- Handler of `GET /api/store/boxes` (`store.js`). -/
def storeBoxes (storeId : Option Nat) (db : Catalogo) : Catalogo × List CajaListada :=
  if falsyNum storeId then (db, [])
  else (selectDeTienda storeId db).foldl cuerpoTienda (db, [])

/-- Sum over the lines recorded for a box of current unit price times quantity. -/
def sumaLineas (db : Catalogo) (box_id : Nat) : ℚ :=
  ((selectLineas db box_id).map (fun l => l.1 * l.2)).sum

/-- Primary key of table `boxes` in the catalog. -/
def CajaKeys (db : Catalogo) : Prop :=
  (db.cajas.map (fun c => c.id)).Nodup

/-- Store 1 submits a box made of product 5, which belongs to store 2. -/
def catalogoAjeno : Catalogo :=
  { products := [⟨5, 2, 10⟩], cajas := [], box_products := [], nextCajaId := 1 }

/-- Box 1 of store 1 with stored `precio_normal` 0 and one line of product 5 at
price 10; box 2 without stored price and one line of quantity 0. -/
def catalogoCero : Catalogo :=
  { products := [⟨5, 1, 10⟩],
    cajas := [⟨1, some 1, some 0, 3, none⟩, ⟨2, some 1, none, 3, none⟩],
    box_products := [⟨1, 5, 2⟩, ⟨2, 5, 0⟩],
    nextCajaId := 3 }

/-- Ids of the boxes of a selection that have no stored `precio_normal`. -/
def idsSinPrecio (sel : List Caja) : List Nat :=
  (sel.filter (fun b => b.precio_normal.isNone)).map (fun b => b.id)

/-- A box row after a listing that computed the price of the boxes with id in `ids`:
those rows hold the sum computed from the lines of the box, the others are as before. -/
def marcar (db : Catalogo) (ids : List Nat) (c : Caja) : Caja :=
  if c.id ∈ ids then { c with precio_normal := some (precioCalculado (selectLineas db c.id)) }
  else c

/-- What a listing over the selection `sel` returns from state `db`: one element per
selected box, reporting the stored `precio_normal` when it is neither NULL nor zero
and the sum computed from the lines of the box otherwise; and a state in which
exactly the selected boxes without stored price had the computed sum written. -/
def ListadoCache (db : Catalogo) (sel : List Caja) (res : Catalogo × List CajaListada) :
    Prop :=
  res.2 = sel.map (fun b => ⟨b.id, some (match b.precio_normal with
      | some p => if p = 0 then precioCalculado (selectLineas db b.id) else p
      | none => precioCalculado (selectLineas db b.id))⟩) ∧
  res.1 = { db with cajas := db.cajas.map (marcar db (idsSinPrecio sel)) } ∧
  ∀ c ∈ db.cajas, c.precio_normal ≠ none → marcar db (idsSinPrecio sel) c = c

/-! ## Accounts: registration and store creation by the admin

Model of `POST /api/auth/register` (`routes/auth.js`) and of the handler of
`POST /api/admin/stores` (`routes/admin.js`).  The schema of table `users` is not
among the sources: the values its column `rol` admits are a parameter
`rolAdmitido`, and an INSERT of a value that is not admitted throws.  Password
hashing is a parameter `hash`, which throws on an absent password. -/

/-- Row of table `users`. -/
structure User where
  id : Nat
  nombre : Option String
  email : Option String
  contrasena : String
  rol : String
deriving DecidableEq, Repr

/-- Tables `users` and `stores` with their AUTO_INCREMENT counters. -/
structure Cuentas where
  users : List User
  stores : List Store
  nextUserId : Nat
  nextStoreId : Nat
deriving DecidableEq, Repr

/-- Body of `POST /api/auth/register`. -/
structure RegisterBody where
  nombre : Option String
  email : Option String
  contrasena : Option String
  rol : Option String
deriving DecidableEq, Repr

/-- Body of `POST /api/admin/stores` (the fields stored in `users`). -/
structure StoreBody where
  nombre_user : Option String
  email : Option String
  contrasena : Option String
deriving DecidableEq, Repr

/-- Responses of the two account routes. -/
inductive CuentaRes where
  | error (status : Nat) (error : String)
  | registrado (id : Nat) (email : Option String) (rol : String)
  | tienda (userId storeId : Nat) (message : String)
deriving DecidableEq, Repr

/-- `rol || "user"`. -/
def rolO (rol : Option String) : String :=
  match rol with
  | none => "user"
  | some r => if r = "" then "user" else r

/-- `SELECT id FROM users WHERE email = ?`; an absent email matches no row. -/
def selectUserIds (st : Cuentas) (email : Option String) : List Nat :=
  (st.users.filter (fun u => email.isSome && u.email == email)).map (fun u => u.id)

/-- `INSERT INTO users (nombre, email, contrasena, rol) VALUES (?,?,?,?)`: the new
state and `insertId`, or `none` when the column does not admit the role. -/
def insertUser (rolAdmitido : String → Bool) (st : Cuentas) (nombre email : Option String)
    (contrasena rol : String) : Option (Cuentas × Nat) :=
  if rolAdmitido rol then
    some ({ st with
            users := st.users ++ [⟨st.nextUserId, nombre, email, contrasena, rol⟩],
            nextUserId := st.nextUserId + 1 },
          st.nextUserId)
  else none

/-- `INSERT INTO stores (..., user_id) VALUES (...)`: the new state and `insertId`. -/
def insertStore (st : Cuentas) (user_id : Nat) : Cuentas × Nat :=
  ({ st with
     stores := st.stores ++ [⟨st.nextStoreId, user_id⟩],
     nextStoreId := st.nextStoreId + 1 },
   st.nextStoreId)

/-- Handler of `POST /api/auth/register`. -/
def register (rolAdmitido : String → Bool) (hash : String → String) (st : Cuentas)
    (body : RegisterBody) : Cuentas × CuentaRes :=
  if (selectUserIds st body.email).length > 0 then
    (st, CuentaRes.error 400 "El email ya está registrado")
  else
    match body.contrasena with
    | none => (st, CuentaRes.error 500 "Error al registrar usuario")
    | some contrasena =>
      match insertUser rolAdmitido st body.nombre body.email (hash contrasena)
          (rolO body.rol) with
      | none => (st, CuentaRes.error 500 "Error al registrar usuario")
      | some (st1, insertId) =>
        let st2 := if body.rol = some "store" then (insertStore st1 insertId).1 else st1
        (st2, CuentaRes.registrado insertId body.email (rolO body.rol))

/-- Handler of `POST /api/admin/stores`, behind `auth(['admin'])`. -/
def adminStores (rolAdmitido : String → Bool) (hash : String → String) (st : Cuentas)
    (body : StoreBody) : Cuentas × CuentaRes :=
  if (selectUserIds st body.email).length > 0 then
    (st, CuentaRes.error 400 "Email ya registrado")
  else
    match body.contrasena with
    | none => (st, CuentaRes.error 500 "Error creando tienda")
    | some contrasena =>
      match insertUser rolAdmitido st body.nombre_user body.email (hash contrasena)
          "store" with
      | none => (st, CuentaRes.error 500 "Error creando tienda")
      | some (st1, userId) =>
        ((insertStore st1 userId).1,
         CuentaRes.tienda userId (insertStore st1 userId).2
           "Tienda creada correctamente con contraseña protegida")

/-- Every stored user has one of the three roles. -/
def RolesOk (st : Cuentas) : Prop :=
  ∀ u ∈ st.users, u.rol = "user" ∨ u.rol = "store" ∨ u.rol = "admin"

/-- One admin account, no store. -/
def cuentasDemo : Cuentas :=
  { users := [⟨1, some "Ana", some "ana@rescuebox.test", "h", "admin"⟩],
    stores := [],
    nextUserId := 2,
    nextStoreId := 1 }

/-- The line that `POST /boxes` records for one submitted product, if any. -/
def lineaDe (boxId : Nat) (prod : ProductoReq) : Option BoxProduct :=
  if falsyNum (getProductId prod) then none
  else some ⟨boxId, (getProductId prod).getD 0, cantidadO1 prod.cantidad⟩

/-- What one submitted product adds to the total of `calcularPrecioTotal`. -/
def aporte (db : Catalogo) (storeId : Option Nat) (prod : ProductoReq) : ℚ :=
  if falsyNum (getProductId prod) then 0
  else
    match selectPrecio db ((getProductId prod).getD 0) storeId with
    | [] => 0
    | precio :: _ => precio * cantidadO1 prod.cantidad

/-- Primary key of table `products`. -/
def ProductKeys (db : Catalogo) : Prop :=
  (db.products.map (fun p => p.id)).Nodup

/-- The sample database without any store row. -/
def dbSinTienda : Db :=
  { boxes := [⟨1, some 1, 1⟩], reservas := [], stores := [], nextReservaId := 1 }

/-- Box 1 without store id, created by a store account without store, and one pending
reservation on it. -/
def dbSinDueno : Db :=
  { boxes := [⟨1, none, 0⟩],
    reservas := [⟨1, 1, 1, "10-11", "1-1-5", Estado.pendiente⟩],
    stores := [],
    nextReservaId := 2 }

/-! ## Lemmas on the SQL statements -/

theorem filter_key_eq_singleton {α : Type} (f : α → Nat) :
    ∀ (l : List α) (a : α), (l.map f).Nodup → a ∈ l →
      l.filter (fun x => f x == f a) = [a] := by
  intro l
  induction l with
  | nil => intro a _ ha; simp at ha
  | cons x xs ih =>
    intro a hnd ha
    rw [List.map_cons, List.nodup_cons] at hnd
    rcases List.mem_cons.mp ha with rfl | hmem
    · have hrest : xs.filter (fun y => f y == f a) = [] := by
        rw [List.filter_eq_nil_iff]
        intro y hy hfy
        exact hnd.1 (by rw [← beq_iff_eq.mp hfy]; exact List.mem_map_of_mem f hy)
      simp [List.filter_cons, hrest]
    · have hne : f x ≠ f a := fun h => hnd.1 (by rw [h]; exact List.mem_map_of_mem f hmem)
      simp [List.filter_cons, hne, ih a hnd.2 hmem]

theorem selectStock_of_mem (db : Db) (b : Box) (hkeys : BoxKeys db) (hb : b ∈ db.boxes) :
    selectStock db b.id = [b.stock] := by
  unfold selectStock
  rw [filter_key_eq_singleton (fun x : Box => x.id) db.boxes b hkeys hb]
  rfl

theorem selectStock_eq_nil (db : Db) (bid : Nat) (h : ∀ b ∈ db.boxes, b.id ≠ bid) :
    selectStock db bid = [] := by
  unfold selectStock
  rw [List.map_eq_nil_iff, List.filter_eq_nil_iff]
  intro b hb hbid
  exact h b hb (beq_iff_eq.mp hbid)

theorem selectCancelable_of_mem (db : Db) (r : Reserva) (uid : Nat) (hkeys : ReservaKeys db)
    (hr : r ∈ db.reservas) (hown : r.user_id = uid) (hpend : r.estado = Estado.pendiente) :
    selectCancelable db r.id uid = [r] := by
  have hsplit : selectCancelable db r.id uid =
      (db.reservas.filter (fun x => x.id == r.id)).filter
        (fun x => x.user_id == uid && decide (x.estado = Estado.pendiente)) := by
    simp only [selectCancelable, List.filter_filter]
    congr 1
    funext x
    rcases Bool.eq_false_or_eq_true (x.id == r.id) with h1 | h1 <;>
      rcases Bool.eq_false_or_eq_true (x.user_id == uid) with h2 | h2 <;>
      simp only [h1, h2] <;> simp
  rw [hsplit, filter_key_eq_singleton (fun x : Reserva => x.id) db.reservas r hkeys hr]
  simp [hown, hpend]

theorem selectCancelable_eq_nil_iff (db : Db) (id uid : Nat) :
    selectCancelable db id uid = [] ↔
      ¬ ∃ r ∈ db.reservas, r.id = id ∧ r.user_id = uid ∧ r.estado = Estado.pendiente := by
  simp [selectCancelable, List.filter_eq_nil_iff]

theorem selectReservaStore_eq_nil (db : Db) (id : Nat) (h : ∀ r ∈ db.reservas, r.id ≠ id) :
    selectReservaStore db id = [] := by
  have hfil : db.reservas.filter (fun r => r.id == id) = [] := by
    rw [List.filter_eq_nil_iff]
    intro r hr hid
    exact h r hr (beq_iff_eq.mp hid)
  simp [selectReservaStore, hfil]

theorem selectReservaStore_of_mem (db : Db) (r : Reserva) (b : Box) (hrk : ReservaKeys db)
    (hbk : BoxKeys db) (hr : r ∈ db.reservas) (hb : b ∈ db.boxes) (hbox : b.id = r.box_id) :
    selectReservaStore db r.id = [(r, b.store_id)] := by
  unfold selectReservaStore
  rw [filter_key_eq_singleton (fun x : Reserva => x.id) db.reservas r hrk hr]
  have hfil := filter_key_eq_singleton (fun x : Box => x.id) db.boxes b hbk hb
  simp only [hbox] at hfil
  simp [hfil]

theorem selectCancelable_updateEstado_cancelado (db : Db) (id uid box_id : Nat) (delta : Int) :
    selectCancelable (updateStock (updateEstado db id Estado.cancelado) box_id delta) id uid
      = [] := by
  rw [selectCancelable_eq_nil_iff]
  rintro ⟨r, hr, hid, _, hpend⟩
  simp only [updateStock, updateEstado, List.mem_map] at hr
  obtain ⟨x, _, hx⟩ := hr
  by_cases hxid : x.id = id
  · rw [if_pos hxid] at hx
    rw [← hx] at hpend
    exact Estado.noConfusion hpend
  · rw [if_neg hxid] at hx
    rw [← hx] at hid
    exact hxid hid

theorem cancelarReserva_cases (fault : Fault) (db : Db) (user : Payload) (id : Nat) :
    (cancelarReserva fault db user id).2.status = 500 ∨
    (cancelarReserva fault db user id).2.status = 404 ∧
      selectCancelable db id user.id = [] ∧ (cancelarReserva fault db user id).1 = db ∨
    (cancelarReserva fault db user id).2.status = 200 ∧
      ∃ r rest, selectCancelable db id user.id = r :: rest ∧
        (cancelarReserva fault db user id).1 =
          updateStock (updateEstado db id Estado.cancelado) r.box_id 1 := by
  unfold cancelarReserva cancelarTx query
  by_cases h0 : fault = some 0
  · simp [h0]
  · cases hsel : selectCancelable db id user.id with
    | nil => simp [h0]
    | cons r rest =>
      by_cases h1 : fault = some 1
      · simp [h1]
      · by_cases h2 : fault = some 2
        · simp [h2]
        · simp [h0, h1, h2]

/-! ## Create reservation -/

/-- C1, counterexample: `franja_horaria` is present in the body but empty, the box
exists with stock 1, and the request is refused with 400 without any write. -/
theorem crearReserva_franja_vacia :
    (⟨1, some 1, 1⟩ : Box) ∈ dbDemo.boxes ∧
    (ReqBody.mk (some 1) (some "")).franja_horaria.isSome = true ∧
    crearReserva none 5 dbDemo ⟨1, "user", StoreRef.null⟩ ⟨some 1, some ""⟩ =
      (dbDemo, ⟨400, ResBody.error "Faltan campos obligatorios"⟩) := by
  decide

/-- C1 (amended): with a non-zero `box_id` and a non-empty `franja_horaria`, a box of
that id with positive stock and no failing statement, the create handler appends
exactly one `pendiente` row for the caller, that box, that time slot and the
generated token, lowers the stock of that box by one and leaves all other rows as
they were, and answers with the new id, the token and the confirmation message. -/
theorem crearReserva_success (now : Nat) (db : Db) (user : Payload) (bid : Nat)
    (franja : String) (b : Box) (hkeys : BoxKeys db) (hb : b ∈ db.boxes) (hid : b.id = bid)
    (hstock : 0 < b.stock) (hbid : bid ≠ 0) (hfr : franja ≠ "") :
    crearReserva none now db user ⟨some bid, some franja⟩ =
      ({ boxes := db.boxes.map
            (fun x => if x.id = bid then { x with stock := x.stock - 1 } else x),
         reservas := db.reservas ++
            [⟨db.nextReservaId, user.id, bid, franja, qrPayload user.id bid now,
              Estado.pendiente⟩],
         stores := db.stores,
         nextReservaId := db.nextReservaId + 1 },
       ⟨200, ResBody.creada db.nextReservaId (qrPayload user.id bid now)
          "Reserva creada correctamente"⟩) := by
  subst hid
  have hsel := selectStock_of_mem db b hkeys hb
  have hnot : ¬ b.stock ≤ 0 := not_le.mpr hstock
  simp [crearReserva, falsyNum, falsyStr, hbid, hfr, query, hsel, hnot, crearTx,
    insertReserva, updateStock, estadoInicial, sub_eq_add_neg]

/-- Instance of C1 on the sample database: user 1 reserves box 1. -/
theorem crearReserva_success_witness :
    crearReserva none 5 dbDemo ⟨1, "user", StoreRef.null⟩ ⟨some 1, some "10-11"⟩ =
      ({ boxes := dbDemo.boxes.map
            (fun x => if x.id = 1 then { x with stock := x.stock - 1 } else x),
         reservas := dbDemo.reservas ++
            [⟨dbDemo.nextReservaId, 1, 1, "10-11", qrPayload 1 1 5, Estado.pendiente⟩],
         stores := dbDemo.stores,
         nextReservaId := dbDemo.nextReservaId + 1 },
       ⟨200, ResBody.creada dbDemo.nextReservaId (qrPayload 1 1 5)
          "Reserva creada correctamente"⟩) :=
  crearReserva_success 5 dbDemo ⟨1, "user", StoreRef.null⟩ 1 "10-11" ⟨1, some 1, 1⟩
    (by unfold BoxKeys; decide) (by decide)
    rfl (by decide) (by decide) (by decide)

/-- C2, counterexample: both fields are present, no box has id 7, and the answer is
400 rather than 404 because `franja_horaria` is the empty string. -/
theorem crearReserva_sin_caja_franja_vacia :
    (ReqBody.mk (some 7) (some "")).box_id.isSome = true ∧
    (ReqBody.mk (some 7) (some "")).franja_horaria.isSome = true ∧
    selectStock dbDemo 7 = [] ∧
    (crearReserva none 5 dbDemo ⟨1, "user", StoreRef.null⟩ ⟨some 7, some ""⟩).2.status = 400 := by
  decide

/-- C2 (amended): the create handler answers 400 when `box_id` or `franja_horaria` is
missing, zero or empty; otherwise, when the stock lookup does not throw, 404 when no
box has the given id, and otherwise 409 when the stock of the box is zero or
negative.  In the three cases the database state is returned unchanged. -/
theorem crearReserva_refusals (fault : Fault) (now : Nat) (db : Db) (user : Payload)
    (body : ReqBody) :
    ((body.box_id = none ∨ body.box_id = some 0 ∨
        body.franja_horaria = none ∨ body.franja_horaria = some "") →
      crearReserva fault now db user body =
        (db, ⟨400, ResBody.error "Faltan campos obligatorios"⟩)) ∧
    (∀ (bid : Nat) (franja : String), body = ⟨some bid, some franja⟩ → bid ≠ 0 →
      franja ≠ "" → fault ≠ some 0 → (∀ b ∈ db.boxes, b.id ≠ bid) →
      crearReserva fault now db user body =
        (db, ⟨404, ResBody.error "Caja no encontrada"⟩)) ∧
    (∀ (bid : Nat) (franja : String) (b : Box), body = ⟨some bid, some franja⟩ →
      bid ≠ 0 → franja ≠ "" → fault ≠ some 0 → BoxKeys db → b ∈ db.boxes → b.id = bid →
      b.stock ≤ 0 →
      crearReserva fault now db user body =
        (db, ⟨409, ResBody.error "Sin stock disponible"⟩)) := by
  refine ⟨?_, ?_, ?_⟩
  · intro h
    obtain ⟨bo, fo⟩ := body
    rcases h with h | h | h | h <;> simp at h <;> subst h <;>
      simp [crearReserva, falsyNum, falsyStr]
  · intro bid franja hbody hbid hfr hfault hnone
    subst hbody
    simp [crearReserva, falsyNum, falsyStr, hbid, hfr, query, hfault,
      selectStock_eq_nil db bid hnone]
  · intro bid franja b hbody hbid hfr hfault hkeys hb hid hstock
    subst hbody
    subst hid
    simp [crearReserva, falsyNum, falsyStr, hbid, hfr, query, hfault,
      selectStock_of_mem db b hkeys hb, hstock]

/-- Instances of C2: a missing `box_id`, an unknown box, and a box without stock. -/
theorem crearReserva_refusals_witness :
    crearReserva none 5 dbDemo ⟨1, "user", StoreRef.null⟩ ⟨none, some "10-11"⟩ =
        (dbDemo, ⟨400, ResBody.error "Faltan campos obligatorios"⟩) ∧
    crearReserva none 5 dbDemo ⟨1, "user", StoreRef.null⟩ ⟨some 7, some "10-11"⟩ =
        (dbDemo, ⟨404, ResBody.error "Caja no encontrada"⟩) ∧
    crearReserva (some 2) 5 dbAgotado ⟨1, "user", StoreRef.null⟩ ⟨some 1, some "10-11"⟩ =
        (dbAgotado, ⟨409, ResBody.error "Sin stock disponible"⟩) :=
  ⟨(crearReserva_refusals none 5 dbDemo ⟨1, "user", StoreRef.null⟩ ⟨none, some "10-11"⟩).1
      (Or.inl rfl),
   (crearReserva_refusals none 5 dbDemo ⟨1, "user", StoreRef.null⟩ ⟨some 7, some "10-11"⟩).2.1
      7 "10-11" rfl (by decide) (by decide) (by decide) (by decide),
   (crearReserva_refusals (some 2) 5 dbAgotado ⟨1, "user", StoreRef.null⟩
      ⟨some 1, some "10-11"⟩).2.2
      1 "10-11" (Box.mk 1 (some 1) 0) rfl (by decide) (by decide) (by decide)
      (show BoxKeys dbAgotado by unfold BoxKeys; decide)
      (show Box.mk 1 (some 1) 0 ∈ dbAgotado.boxes by decide) rfl (by decide)⟩

/-! ## Rollback of the two transactions -/

/-- C3: once the create handler has reached its transaction (fields given, stock
lookup returning a positive stock), a failure of the insert (query 1) or of the
stock decrement after the insert (query 2) leaves the database state as it was and
answers 500 with the fixed message; and once the cancel handler has found a
cancelable row, a failure of the state update (query 1) or of the stock increment
after it (query 2) does the same with its own message. -/
theorem transaction_rollback (fault : Fault) (db : Db) (user : Payload)
    (hfault : fault = some 1 ∨ fault = some 2) :
    (∀ (now bid : Nat) (franja : String) (stock : Int) (rest : List Int),
      bid ≠ 0 → franja ≠ "" → selectStock db bid = stock :: rest → 0 < stock →
      crearReserva fault now db user ⟨some bid, some franja⟩ =
        (db, ⟨500, ResBody.error "Error al crear reserva"⟩)) ∧
    (∀ (id : Nat) (r : Reserva) (rest : List Reserva),
      selectCancelable db id user.id = r :: rest →
      cancelarReserva fault db user id =
        (db, ⟨500, ResBody.error "Error al cancelar reserva"⟩)) := by
  refine ⟨?_, ?_⟩
  · intro now bid franja stock rest hbid hfr hsel hpos
    have hnot : ¬ stock ≤ 0 := not_le.mpr hpos
    rcases hfault with h | h <;> subst h <;>
      simp [crearReserva, falsyNum, falsyStr, hbid, hfr, query, hsel, hnot, crearTx]
  · intro id r rest hsel
    rcases hfault with h | h <;> subst h <;>
      simp [cancelarReserva, query, hsel, cancelarTx]

/-- Instances of C3: the second statement of each transaction throws. -/
theorem transaction_rollback_witness :
    crearReserva (some 2) 5 dbDemo ⟨1, "user", StoreRef.null⟩ ⟨some 1, some "10-11"⟩ =
        (dbDemo, ⟨500, ResBody.error "Error al crear reserva"⟩) ∧
    cancelarReserva (some 2) dbAgotado ⟨1, "user", StoreRef.null⟩ 1 =
        (dbAgotado, ⟨500, ResBody.error "Error al cancelar reserva"⟩) :=
  ⟨(transaction_rollback (some 2) dbDemo ⟨1, "user", StoreRef.null⟩ (Or.inr rfl)).1
      5 1 "10-11" 1 [] (by decide) (by decide) (by decide) (by decide),
   (transaction_rollback (some 2) dbAgotado ⟨1, "user", StoreRef.null⟩ (Or.inr rfl)).2
      1 ⟨1, 1, 1, "10-11", "1-1-5", Estado.pendiente⟩ [] (by decide)⟩

/-! ## Cancel reservation -/

/-- C4: when a reservation with the given id exists, is owned by the caller and is
`pendiente`, and no statement fails, the cancel handler sets the state of that
reservation to `cancelado`, raises the stock of its box by one, leaves all other
reservations and boxes as they were, and answers with the success message. -/
theorem cancelarReserva_success (db : Db) (user : Payload) (id : Nat) (r : Reserva)
    (hkeys : ReservaKeys db) (hr : r ∈ db.reservas) (hid : r.id = id)
    (hown : r.user_id = user.id) (hpend : r.estado = Estado.pendiente) :
    cancelarReserva none db user id =
      ({ boxes := db.boxes.map
            (fun x => if x.id = r.box_id then { x with stock := x.stock + 1 } else x),
         reservas := db.reservas.map
            (fun x => if x.id = id then { x with estado := Estado.cancelado } else x),
         stores := db.stores,
         nextReservaId := db.nextReservaId },
       ⟨200, ResBody.message "Reserva cancelada correctamente"⟩) := by
  subst hid
  simp [cancelarReserva, query, selectCancelable_of_mem db r user.id hkeys hr hown hpend,
    cancelarTx, updateEstado, updateStock]

/-- Instance of C4: user 1 cancels reservation 1 of the sample database. -/
theorem cancelarReserva_success_witness :
    cancelarReserva none dbAgotado ⟨1, "user", StoreRef.null⟩ 1 =
      ({ boxes := dbAgotado.boxes.map
            (fun x => if x.id = 1 then { x with stock := x.stock + 1 } else x),
         reservas := dbAgotado.reservas.map
            (fun x => if x.id = 1 then { x with estado := Estado.cancelado } else x),
         stores := dbAgotado.stores,
         nextReservaId := dbAgotado.nextReservaId },
       ⟨200, ResBody.message "Reserva cancelada correctamente"⟩) :=
  cancelarReserva_success dbAgotado ⟨1, "user", StoreRef.null⟩ 1
    ⟨1, 1, 1, "10-11", "1-1-5", Estado.pendiente⟩
    (show ReservaKeys dbAgotado by unfold ReservaKeys; decide) (by decide) rfl rfl rfl

/-- C5: when the lookup does not throw, the cancel handler answers 404 exactly when no
reservation has the given id, the caller as owner and state `pendiente`; so it
answers 404 for a reservation of another user or one that is not `pendiente`; it
never answers 403; whenever it answers 404 the database state is unchanged; and
after a successful cancel a second cancel of the same id by the same caller answers
404 and leaves the state, stock included, as the first cancel left it. -/
theorem cancelarReserva_refusal (db : Db) (user : Payload) (id : Nat) :
    (∀ fault : Fault, fault ≠ some 0 →
      ((cancelarReserva fault db user id).2.status = 404 ↔
        ¬ ∃ r ∈ db.reservas, r.id = id ∧ r.user_id = user.id ∧
          r.estado = Estado.pendiente)) ∧
    (∀ r ∈ db.reservas, ReservaKeys db → r.id = id →
      (r.user_id ≠ user.id ∨ r.estado ≠ Estado.pendiente) →
      cancelarReserva none db user id =
        (db, ⟨404, ResBody.error "Reserva no encontrada o no cancelable"⟩)) ∧
    (∀ fault : Fault, (cancelarReserva fault db user id).2.status ≠ 403) ∧
    (∀ fault : Fault, (cancelarReserva fault db user id).2.status = 404 →
      (cancelarReserva fault db user id).1 = db) ∧
    ((cancelarReserva none db user id).2.status = 200 →
      cancelarReserva none (cancelarReserva none db user id).1 user id =
        ((cancelarReserva none db user id).1,
          ⟨404, ResBody.error "Reserva no encontrada o no cancelable"⟩)) := by
  have hiff : ∀ fault : Fault, fault ≠ some 0 →
      ((cancelarReserva fault db user id).2.status = 404 ↔
        selectCancelable db id user.id = []) := by
    intro fault h0
    cases hsel : selectCancelable db id user.id with
    | nil => simp [cancelarReserva, query, hsel, h0]
    | cons r rest =>
      by_cases h1 : fault = some 1
      · simp [cancelarReserva, query, hsel, cancelarTx, h1]
      · by_cases h2 : fault = some 2
        · simp [cancelarReserva, query, hsel, cancelarTx, h2]
        · simp [cancelarReserva, query, hsel, cancelarTx, h0, h1, h2]
  refine ⟨?_, ?_, ?_, ?_, ?_⟩
  · intro fault h0
    rw [hiff fault h0, selectCancelable_eq_nil_iff]
  · intro r hr hkeys hid hor
    have hnil : selectCancelable db id user.id = [] := by
      rw [selectCancelable_eq_nil_iff]
      rintro ⟨x, hx, hxid, hxown, hxpend⟩
      have hsel := selectCancelable_of_mem db x user.id hkeys hx hxown hxpend
      have hfil := filter_key_eq_singleton (fun y : Reserva => y.id) db.reservas r hkeys hr
      have hfilx := filter_key_eq_singleton (fun y : Reserva => y.id) db.reservas x hkeys hx
      simp only [hid, hxid] at hfil hfilx
      rw [hfil] at hfilx
      have hrx : r = x := by simpa using hfilx
      subst hrx
      rcases hor with h | h
      · exact h hxown
      · exact h hxpend
    simp [cancelarReserva, query, hnil]
  · intro fault
    rcases cancelarReserva_cases fault db user id with h | ⟨h, _⟩ | ⟨h, _⟩ <;> rw [h] <;> decide
  · intro fault h404
    rcases cancelarReserva_cases fault db user id with h | ⟨_, _, h⟩ | ⟨h, _⟩
    · rw [h] at h404; exact absurd h404 (by decide)
    · exact h
    · rw [h] at h404; exact absurd h404 (by decide)
  · intro h200
    rcases cancelarReserva_cases none db user id with h | ⟨h, _⟩ | ⟨_, r, rest, _, hdb⟩
    · rw [h] at h200; exact absurd h200 (by decide)
    · rw [h] at h200; exact absurd h200 (by decide)
    · rw [hdb]
      simp [cancelarReserva, query, selectCancelable_updateEstado_cancelado]

/-- Instances of C5: no reservation at all, a reservation of another user, and a
second cancel. -/
theorem cancelarReserva_refusal_witness :
    ((cancelarReserva (some 2) dbDemo ⟨1, "user", StoreRef.null⟩ 1).2.status = 404 ↔
      ¬ ∃ r ∈ dbDemo.reservas, r.id = 1 ∧ r.user_id = 1 ∧ r.estado = Estado.pendiente) ∧
    cancelarReserva none dbAgotado ⟨9, "user", StoreRef.null⟩ 1 =
        (dbAgotado, ⟨404, ResBody.error "Reserva no encontrada o no cancelable"⟩) ∧
    (cancelarReserva (some 2) dbDemo ⟨1, "user", StoreRef.null⟩ 1).1 = dbDemo ∧
    cancelarReserva none (cancelarReserva none dbAgotado ⟨1, "user", StoreRef.null⟩ 1).1
        ⟨1, "user", StoreRef.null⟩ 1 =
      ((cancelarReserva none dbAgotado ⟨1, "user", StoreRef.null⟩ 1).1,
        ⟨404, ResBody.error "Reserva no encontrada o no cancelable"⟩) :=
  ⟨(cancelarReserva_refusal dbDemo ⟨1, "user", StoreRef.null⟩ 1).1 (some 2) (by decide),
   (cancelarReserva_refusal dbAgotado ⟨9, "user", StoreRef.null⟩ 1).2.1
      ⟨1, 1, 1, "10-11", "1-1-5", Estado.pendiente⟩ (by decide)
      (show ReservaKeys dbAgotado by unfold ReservaKeys; decide) rfl (Or.inl (by decide)),
   (cancelarReserva_refusal dbDemo ⟨1, "user", StoreRef.null⟩ 1).2.2.2.1 (some 2) (by decide),
   (cancelarReserva_refusal dbAgotado ⟨1, "user", StoreRef.null⟩ 1).2.2.2.2 (by decide)⟩

/-! ## Validate pickup -/

/-- C6: when the reservation lookup does not throw, the validate handler answers 404
when no reservation has the given id, and 403 when the reservation exists, its box
has a store id and that store is not the store of the caller, a caller without
store included; in both cases the database state is unchanged. -/
theorem validarReserva_refusal (fault : Fault) (db : Db) (user : Payload) (id : Nat)
    (hfault : fault ≠ some 0) :
    ((∀ r ∈ db.reservas, r.id ≠ id) →
      validarReserva fault db user id =
        (db, ⟨404, ResBody.error "Reserva no encontrada"⟩)) ∧
    (∀ (r : Reserva) (b : Box) (s : Nat), ReservaKeys db → BoxKeys db → r ∈ db.reservas →
      r.id = id → b ∈ db.boxes → b.id = r.box_id → b.store_id = some s →
      user.store_id ≠ StoreRef.num s →
      validarReserva fault db user id =
        (db, ⟨403, ResBody.error "No autorizado para validar esta reserva"⟩)) := by
  refine ⟨?_, ?_⟩
  · intro hnone
    simp [validarReserva, query, hfault, selectReservaStore_eq_nil db id hnone]
  · intro r b s hrk hbk hr hid hb hbox hbs hstore
    subst hid
    have hdist : storeDistinto (some s) user.store_id = true := by
      cases hu : user.store_id with
      | undefined => rfl
      | null => rfl
      | num n =>
        have hne : s ≠ n := by
          intro h
          apply hstore
          rw [hu, h]
        simp [storeDistinto, hne]
    simp [validarReserva, query, hfault, selectReservaStore_of_mem db r b hrk hbk hr hb hbox,
      hbs, hdist]

/-- Instances of C6: an unknown reservation; callers whose token carries a `null`
store id, no store id, and the id of another store. -/
theorem validarReserva_refusal_witness :
    validarReserva none dbAgotado ⟨2, "store", StoreRef.num 1⟩ 8 =
        (dbAgotado, ⟨404, ResBody.error "Reserva no encontrada"⟩) ∧
    validarReserva none dbAgotado ⟨3, "store", StoreRef.null⟩ 1 =
        (dbAgotado, ⟨403, ResBody.error "No autorizado para validar esta reserva"⟩) ∧
    validarReserva none dbAgotado ⟨3, "store", StoreRef.undefined⟩ 1 =
        (dbAgotado, ⟨403, ResBody.error "No autorizado para validar esta reserva"⟩) ∧
    validarReserva none dbAgotado ⟨3, "store", StoreRef.num 7⟩ 1 =
        (dbAgotado, ⟨403, ResBody.error "No autorizado para validar esta reserva"⟩) :=
  ⟨(validarReserva_refusal none dbAgotado ⟨2, "store", StoreRef.num 1⟩ 8 (by decide)).1
      (by decide),
   (validarReserva_refusal none dbAgotado ⟨3, "store", StoreRef.null⟩ 1 (by decide)).2
      ⟨1, 1, 1, "10-11", "1-1-5", Estado.pendiente⟩ (Box.mk 1 (some 1) 0) 1
      (show ReservaKeys dbAgotado by unfold ReservaKeys; decide)
      (show BoxKeys dbAgotado by unfold BoxKeys; decide)
      (by decide) rfl (by decide) rfl rfl (by decide),
   (validarReserva_refusal none dbAgotado ⟨3, "store", StoreRef.undefined⟩ 1 (by decide)).2
      ⟨1, 1, 1, "10-11", "1-1-5", Estado.pendiente⟩ (Box.mk 1 (some 1) 0) 1
      (show ReservaKeys dbAgotado by unfold ReservaKeys; decide)
      (show BoxKeys dbAgotado by unfold BoxKeys; decide)
      (by decide) rfl (by decide) rfl rfl (by decide),
   (validarReserva_refusal none dbAgotado ⟨3, "store", StoreRef.num 7⟩ 1 (by decide)).2
      ⟨1, 1, 1, "10-11", "1-1-5", Estado.pendiente⟩ (Box.mk 1 (some 1) 0) 1
      (show ReservaKeys dbAgotado by unfold ReservaKeys; decide)
      (show BoxKeys dbAgotado by unfold BoxKeys; decide)
      (by decide) rfl (by decide) rfl rfl (by decide)⟩

/-- A box without store id and a caller whose token carries a `null` store id: the
comparison at `reservas.js:143` finds them equal and the handler validates. -/
theorem validarReserva_sin_tienda :
    dbSinDueno.boxes.map (fun b => b.store_id) = [none] ∧
    (validarReserva none dbSinDueno ⟨3, "store", StoreRef.null⟩ 1).2.status = 200 ∧
    (validarReserva none dbSinDueno ⟨3, "store", StoreRef.undefined⟩ 1).2.status = 403 := by
  decide

/-- C7: when the reservation exists and its box belongs to the store of the caller,
and no statement fails, the validate handler sets the state of that reservation to
`retirado` and returns every box row and every other reservation as it was. -/
theorem validarReserva_effect (db : Db) (user : Payload) (id : Nat) (r : Reserva) (b : Box)
    (s : Nat) (hrk : ReservaKeys db) (hbk : BoxKeys db) (hr : r ∈ db.reservas)
    (hid : r.id = id) (hb : b ∈ db.boxes) (hbox : b.id = r.box_id)
    (hbs : b.store_id = some s) (hstore : user.store_id = StoreRef.num s) :
    validarReserva none db user id =
      ({ boxes := db.boxes,
         reservas := db.reservas.map
            (fun x => if x.id = id then { x with estado := Estado.retirado } else x),
         stores := db.stores,
         nextReservaId := db.nextReservaId },
       ⟨200, ResBody.message "Reserva validada y marcada como retirada"⟩) := by
  subst hid
  simp [validarReserva, query, selectReservaStore_of_mem db r b hrk hbk hr hb hbox,
    hbs, hstore, storeDistinto, updateEstado]

/-- Instance of C7: the owner of store 1 validates reservation 1. -/
theorem validarReserva_effect_witness :
    validarReserva none dbAgotado ⟨2, "store", StoreRef.num 1⟩ 1 =
      ({ boxes := dbAgotado.boxes,
         reservas := dbAgotado.reservas.map
            (fun x => if x.id = 1 then { x with estado := Estado.retirado } else x),
         stores := dbAgotado.stores,
         nextReservaId := dbAgotado.nextReservaId },
       ⟨200, ResBody.message "Reserva validada y marcada como retirada"⟩) :=
  validarReserva_effect dbAgotado ⟨2, "store", StoreRef.num 1⟩ 1
    ⟨1, 1, 1, "10-11", "1-1-5", Estado.pendiente⟩ (Box.mk 1 (some 1) 0) 1
    (show ReservaKeys dbAgotado by unfold ReservaKeys; decide)
    (show BoxKeys dbAgotado by unfold BoxKeys; decide) (by decide) rfl (by decide) rfl rfl rfl

/-! ## Stock and reservation counts along a run -/

theorem stockOf_updateStock (db : Db) (box_id bid : Nat) (delta : Int) :
    stockOf (updateStock db box_id delta) bid =
      (stockOf db bid).map (fun s => s + (if bid = box_id then delta else 0)) := by
  unfold stockOf selectStock updateStock
  simp only
  induction db.boxes with
  | nil => rfl
  | cons x xs ih =>
    have hid : (if x.id = box_id then ({ x with stock := x.stock + delta } : Box) else x).id
        = x.id := by
      split <;> rfl
    rw [List.map_cons, List.filter_cons, List.filter_cons, hid]
    by_cases hx : x.id = bid
    · have hxb : (x.id == bid) = true := beq_iff_eq.mpr hx
      rw [if_pos hxb, if_pos hxb]
      by_cases hb : x.id = box_id
      · have hbb : bid = box_id := hx ▸ hb
        simp [hb, hbb]
      · have hbb : ¬ bid = box_id := fun h => hb (hx.trans h)
        simp [hb, hbb]
    · have hxb : ¬ (x.id == bid) = true := fun h => hx (beq_iff_eq.mp h)
      rw [if_neg hxb, if_neg hxb]
      exact ih

theorem countP_cancel_fresh (id : Nat) :
    ∀ l : List Reserva, (∀ x ∈ l, x.id ≠ id) →
      l.map (fun x => if x.id = id then { x with estado := Estado.cancelado } else x) = l := by
  intro l h
  conv_rhs => rw [← List.map_id l]
  apply List.map_congr_left
  intro x hx
  simp [h x hx]

theorem countP_cancel (bid : Nat) (r : Reserva) (hact : r.estado ≠ Estado.cancelado) :
    ∀ l : List Reserva, (l.map (fun x => x.id)).Nodup → r ∈ l →
      (l.map (fun x => if x.id = r.id then { x with estado := Estado.cancelado } else x)).countP
          (esActiva bid) + (if r.box_id = bid then 1 else 0) =
        l.countP (esActiva bid) := by
  intro l
  induction l with
  | nil => intro _ hr; simp at hr
  | cons x xs ih =>
    intro hnd hr
    rw [List.map_cons, List.nodup_cons] at hnd
    rcases List.mem_cons.mp hr with rfl | hmem
    · have hfresh : ∀ y ∈ xs, y.id ≠ r.id := fun y hy h =>
        hnd.1 (by rw [← h]; exact List.mem_map_of_mem (fun x => x.id) hy)
      rw [List.map_cons, countP_cancel_fresh r.id xs hfresh]
      by_cases hb : r.box_id = bid
      · simp [List.countP_cons, esActiva, hb, hact]
      · simp [List.countP_cons, esActiva, hb]
    · have hne : x.id ≠ r.id := fun h =>
        hnd.1 (by rw [h]; exact List.mem_map_of_mem (fun x => x.id) hmem)
      have hih := ih hnd.2 hmem
      rw [List.map_cons, if_neg hne, List.countP_cons, List.countP_cons]
      omega

theorem keys_insertReserva (db : Db) (uid bid : Nat) (franja qr : String)
    (hk : ReservaKeys db) (ha : AutoIncrement db) :
    ReservaKeys (insertReserva db uid bid franja qr).1 ∧
      AutoIncrement (insertReserva db uid bid franja qr).1 := by
  unfold ReservaKeys AutoIncrement at *
  constructor
  · simp only [insertReserva, List.map_append, List.map_cons, List.map_nil]
    rw [List.nodup_append]
    refine ⟨hk, List.nodup_singleton _, ?_⟩
    intro a ha1 ha2
    rw [List.mem_singleton] at ha2
    obtain ⟨x, hx, hxa⟩ := List.mem_map.mp ha1
    have := ha x hx
    omega
  · intro x hx
    simp only [insertReserva, List.mem_append, List.mem_singleton] at hx ⊢
    rcases hx with hx | hx
    · have := ha x hx
      omega
    · subst hx
      simp

theorem keys_updateEstado (db : Db) (id : Nat) (e : Estado)
    (hk : ReservaKeys db) (ha : AutoIncrement db) :
    ReservaKeys (updateEstado db id e) ∧ AutoIncrement (updateEstado db id e) := by
  unfold ReservaKeys AutoIncrement at *
  have hids : (updateEstado db id e).reservas.map (fun r => r.id) =
      db.reservas.map (fun r => r.id) := by
    simp only [updateEstado, List.map_map]
    apply List.map_congr_left
    intro x _
    by_cases hx : x.id = id <;> simp [hx]
  constructor
  · rw [hids]; exact hk
  · intro x hx
    have hmem : x.id ∈ (updateEstado db id e).reservas.map (fun r => r.id) :=
      List.mem_map_of_mem (fun r => r.id) hx
    rw [hids] at hmem
    obtain ⟨y, hy, hyx⟩ := List.mem_map.mp hmem
    have := ha y hy
    simp only [updateEstado]
    omega

theorem keys_updateStock (db : Db) (bid : Nat) (delta : Int)
    (hk : ReservaKeys db) (ha : AutoIncrement db) :
    ReservaKeys (updateStock db bid delta) ∧ AutoIncrement (updateStock db bid delta) :=
  ⟨hk, ha⟩

theorem saldo_crear (db : Db) (uid box_id : Nat) (franja qr : String) (bid : Nat) :
    saldo (updateStock (insertReserva db uid box_id franja qr).1 box_id (-1)) bid =
      saldo db bid := by
  unfold saldo
  rw [stockOf_updateStock]
  have hstock : stockOf (insertReserva db uid box_id franja qr).1 bid = stockOf db bid := rfl
  have hact : activas (updateStock (insertReserva db uid box_id franja qr).1 box_id (-1)) bid
      = activas db bid + (if bid = box_id then 1 else 0) := by
    simp only [activas, updateStock, insertReserva, List.countP_append, List.countP_cons,
      List.countP_nil, esActiva, estadoInicial]
    by_cases h : bid = box_id
    · simp [h]
    · have h2 : ¬ box_id = bid := fun e => h e.symm
      simp [h, h2]
  rw [hstock, hact, Option.map_map]
  congr 1
  funext s
  by_cases h : bid = box_id
  · simp [h]; omega
  · simp [h]

theorem saldo_cancelar (db : Db) (id uid : Nat) (r : Reserva) (rest : List Reserva)
    (hk : ReservaKeys db) (hsel : selectCancelable db id uid = r :: rest) (bid : Nat) :
    saldo (updateStock (updateEstado db id Estado.cancelado) r.box_id 1) bid = saldo db bid := by
  have hmem : r ∈ selectCancelable db id uid := by rw [hsel]; exact List.mem_cons_self _ _
  simp only [selectCancelable, List.mem_filter, Bool.and_eq_true, beq_iff_eq,
    decide_eq_true_eq] at hmem
  obtain ⟨hr, ⟨hid, _⟩, hpend⟩ := hmem
  have hact0 : r.estado ≠ Estado.cancelado := by rw [hpend]; decide
  have hcount := countP_cancel bid r hact0 db.reservas hk hr
  rw [hid] at hcount
  unfold saldo
  rw [stockOf_updateStock]
  have hstock : stockOf (updateEstado db id Estado.cancelado) bid = stockOf db bid := rfl
  have hact : activas (updateStock (updateEstado db id Estado.cancelado) r.box_id 1) bid =
      (db.reservas.map
        (fun x => if x.id = id then { x with estado := Estado.cancelado } else x)).countP
        (esActiva bid) := rfl
  rw [hstock, hact, Option.map_map]
  congr 1
  funext s
  have hdb : activas db bid = db.reservas.countP (esActiva bid) := rfl
  rw [hdb]
  show s + (if bid = r.box_id then (1 : Int) else 0) + _ = s + _
  generalize (db.reservas.map
    (fun x => if x.id = id then { x with estado := Estado.cancelado } else x)).countP
    (esActiva bid) = m at hcount ⊢
  generalize db.reservas.countP (esActiva bid) = n at hcount ⊢
  by_cases h : bid = r.box_id
  · rw [if_pos h]
    rw [if_pos h.symm] at hcount
    omega
  · have h2 : ¬ r.box_id = bid := fun e => h e.symm
    rw [if_neg h]
    rw [if_neg h2] at hcount
    omega

theorem crearReserva_db_cases (fault : Fault) (now : Nat) (db : Db) (user : Payload)
    (body : ReqBody) :
    (crearReserva fault now db user body).1 = db ∨
    ∃ (bid : Nat) (franja qr : String), (crearReserva fault now db user body).1 =
      updateStock (insertReserva db user.id bid franja qr).1 bid (-1) := by
  unfold crearReserva crearTx query
  by_cases hf : (falsyNum body.box_id || falsyStr body.franja_horaria) = true
  · simp [hf]
  · by_cases h0 : fault = some 0
    · simp [hf, h0]
    · cases hsel : selectStock db (body.box_id.getD 0) with
      | nil => simp [hf, h0, hsel]
      | cons stock rest =>
        by_cases hs : stock ≤ 0
        · simp [hf, h0, hsel, hs]
        · by_cases h1 : fault = some 1
          · simp [hf, h0, hsel, hs, h1]
          · by_cases h2 : fault = some 2
            · simp [hf, h0, hsel, hs, h2]
            · right
              refine ⟨body.box_id.getD 0, body.franja_horaria.getD "",
                qrPayload user.id (body.box_id.getD 0) now, ?_⟩
              simp [hf, h0, hsel, hs, h1, h2]

theorem cancelarReserva_db_cases (fault : Fault) (db : Db) (user : Payload) (id : Nat) :
    (cancelarReserva fault db user id).1 = db ∨
    ∃ (r : Reserva) (rest : List Reserva), selectCancelable db id user.id = r :: rest ∧
      (cancelarReserva fault db user id).1 =
        updateStock (updateEstado db id Estado.cancelado) r.box_id 1 := by
  unfold cancelarReserva cancelarTx query
  by_cases h0 : fault = some 0
  · simp [h0]
  · cases hsel : selectCancelable db id user.id with
    | nil => simp [h0]
    | cons r rest =>
      by_cases h1 : fault = some 1
      · simp [h1]
      · by_cases h2 : fault = some 2
        · simp [h2]
        · simp [h0, h1, h2]

theorem route_cases (verify : String → Option Payload) (roleAllowed : List String) (db : Db)
    (lookupFails : Bool) (header : Option String) (handler : Payload → Db × Response) :
    (route verify roleAllowed db lookupFails header handler).1 = db ∨
    ∃ user : Payload, route verify roleAllowed db lookupFails header handler =
      handler user := by
  unfold route
  cases auth verify roleAllowed db lookupFails header with
  | error res => exact Or.inl rfl
  | ok user => exact Or.inr ⟨user, rfl⟩

theorem step_crearOCancelar (verify : String → Option Payload) (db : Db) (req : Request)
    (hreq : req.crearOCancelar = true) (hk : ReservaKeys db) (ha : AutoIncrement db) :
    (ReservaKeys (step verify db req).1 ∧ AutoIncrement (step verify db req).1) ∧
      ∀ bid : Nat, saldo (step verify db req).1 bid = saldo db bid := by
  cases req with
  | validar header id fault lookupFails => simp [Request.crearOCancelar] at hreq
  | crear header body now fault lookupFails =>
    simp only [step]
    rcases route_cases verify ["user"] db lookupFails header
        (fun user => crearReserva fault now db user body) with h | ⟨user, h⟩
    · rw [h]; exact ⟨⟨hk, ha⟩, fun _ => rfl⟩
    · rw [h]
      rcases crearReserva_db_cases fault now db user body with h1 | ⟨bid, franja, qr, h1⟩
      · rw [h1]; exact ⟨⟨hk, ha⟩, fun _ => rfl⟩
      · rw [h1]
        have hins := keys_insertReserva db user.id bid franja qr hk ha
        exact ⟨keys_updateStock _ bid (-1) hins.1 hins.2,
          fun b => saldo_crear db user.id bid franja qr b⟩
  | cancelar header id fault lookupFails =>
    simp only [step]
    rcases route_cases verify ["user"] db lookupFails header
        (fun user => cancelarReserva fault db user id) with h | ⟨user, h⟩
    · rw [h]; exact ⟨⟨hk, ha⟩, fun _ => rfl⟩
    · rw [h]
      rcases cancelarReserva_db_cases fault db user id with h1 | ⟨r, rest, hsel, h1⟩
      · rw [h1]; exact ⟨⟨hk, ha⟩, fun _ => rfl⟩
      · rw [h1]
        have hupd := keys_updateEstado db id Estado.cancelado hk ha
        exact ⟨keys_updateStock _ r.box_id 1 hupd.1 hupd.2,
          fun b => saldo_cancelar db id user.id r rest hk hsel b⟩

theorem run_crearOCancelar (verify : String → Option Payload) :
    ∀ (reqs : List Request) (db : Db), (∀ req ∈ reqs, req.crearOCancelar = true) →
      ReservaKeys db → AutoIncrement db →
      ∀ bid : Nat, saldo (run verify db reqs) bid = saldo db bid := by
  intro reqs
  induction reqs with
  | nil => intro db _ _ _ bid; rfl
  | cons req reqs ih =>
    intro db hreqs hk ha bid
    have hstep := step_crearOCancelar verify db req
      (hreqs req (List.mem_cons_self _ _)) hk ha
    have hrest := ih (step verify db req).1
      (fun q hq => hreqs q (List.mem_cons_of_mem _ hq)) hstep.1.1 hstep.1.2 bid
    simp only [run]
    rw [hrest, hstep.2 bid]

/-- C9 (amended): for a box that starts with no reservations and any sequence of
create and cancel requests served one after another, by any callers and with any
injected statement failures, the final stock of the box is its initial stock minus
the number of its reservations that are `pendiente` or `retirado`; cancelled
reservations add nothing. -/
theorem stock_conservation (verify : String → Option Payload) (db : Db)
    (reqs : List Request) (bid : Nat) (s0 : Int)
    (hk : ReservaKeys db) (ha : AutoIncrement db)
    (hnone : ∀ r ∈ db.reservas, r.box_id ≠ bid)
    (hstock : stockOf db bid = some s0)
    (hreqs : ∀ req ∈ reqs, req.crearOCancelar = true) :
    stockOf (run verify db reqs) bid =
      some (s0 - (activas (run verify db reqs) bid : Int)) := by
  have hrun := run_crearOCancelar verify reqs db hreqs hk ha bid
  have hzero : activas db bid = 0 := by
    unfold activas
    rw [List.countP_eq_zero]
    intro r hr
    simp [esActiva, hnone r hr]
  unfold saldo at hrun
  rw [hstock, hzero] at hrun
  cases hfin : stockOf (run verify db reqs) bid with
  | none => rw [hfin] at hrun; simp at hrun
  | some s1 =>
    rw [hfin] at hrun
    simp only [Option.map_some', Option.some.injEq] at hrun
    congr 1
    push_cast at hrun
    omega

/-- Instance of C9: a create and a cancel on the sample database. -/
theorem stock_conservation_witness :
    stockOf (run verifyDemo dbDemo crearYCancelar) 1 =
      some (1 - (activas (run verifyDemo dbDemo crearYCancelar) 1 : Int)) :=
  stock_conservation verifyDemo dbDemo crearYCancelar 1 1
    (show ReservaKeys dbDemo by unfold ReservaKeys; decide)
    (show AutoIncrement dbDemo by unfold AutoIncrement; decide)
    (by decide) (by decide) (by decide)

/-! ## The reservation state machine -/

/-- C8, failing input: reservation 1 is `cancelado`; a validate request by the owner
of the store of its box answers 200 and leaves the reservation `retirado`. -/
theorem validar_reserva_cancelada :
    dbCancelada.reservas.map (fun r => (r.id, r.estado)) = [(1, Estado.cancelado)] ∧
    (step verifyDemo dbCancelada (Request.validar (some "Bearer s") 1 none false)).2.status = 200 ∧
    (step verifyDemo dbCancelada (Request.validar (some "Bearer s") 1 none false)).1.reservas.map
      (fun r => (r.id, r.estado)) = [(1, Estado.retirado)] := by
  decide

/-- C9, counterexample: after a create and a cancel on a box with initial stock 1 the
stock is 1 again, with no active and one cancelled reservation, so it is not
initial stock minus active plus cancelled, which is 2. -/
theorem stock_tras_crear_y_cancelar :
    stockOf dbDemo 1 = some 1 ∧ activas dbDemo 1 = 0 ∧ canceladas dbDemo 1 = 0 ∧
    stockOf (run verifyDemo dbDemo crearYCancelar) 1 = some 1 ∧
    activas (run verifyDemo dbDemo crearYCancelar) 1 = 0 ∧
    canceladas (run verifyDemo dbDemo crearYCancelar) 1 = 1 ∧
    stockOf (run verifyDemo dbDemo crearYCancelar) 1 ≠
      some (1 - (activas (run verifyDemo dbDemo crearYCancelar) 1 : Int)
        + (canceladas (run verifyDemo dbDemo crearYCancelar) 1 : Int)) := by
  decide

/-- C10, failing input: create, cancel, then validate of the cancelled reservation, on
a box with initial stock 1: the stock is 1 while one reservation of the box is
`retirado`, so the stock is not initial stock minus active reservations. -/
theorem stock_tras_validar_cancelada :
    stockOf dbDemo 1 = some 1 ∧ activas dbDemo 1 = 0 ∧
    stockOf (run verifyDemo dbDemo
      (crearYCancelar ++ [Request.validar (some "Bearer s") 1 none false])) 1 = some 1 ∧
    activas (run verifyDemo dbDemo
      (crearYCancelar ++ [Request.validar (some "Bearer s") 1 none false])) 1 = 1 ∧
    stockOf (run verifyDemo dbDemo
      (crearYCancelar ++ [Request.validar (some "Bearer s") 1 none false])) 1 ≠
      some (1 - (activas (run verifyDemo dbDemo
        (crearYCancelar ++ [Request.validar (some "Bearer s") 1 none false])) 1 : Int)) := by
  decide

/-! ## Re-validation -/

theorem validarReserva_of_mem (db : Db) (user : Payload) (r : Reserva) (b : Box) (s : Nat)
    (hrk : ReservaKeys db) (hbk : BoxKeys db) (hr : r ∈ db.reservas)
    (hb : b ∈ db.boxes) (hbox : b.id = r.box_id)
    (hbs : b.store_id = some s) (hstore : user.store_id = StoreRef.num s) :
    validarReserva none db user r.id =
      (updateEstado db r.id Estado.retirado,
       ⟨200, ResBody.message "Reserva validada y marcada como retirada"⟩) := by
  simp [validarReserva, query, selectReservaStore_of_mem db r b hrk hbk hr hb hbox, hbs,
    hstore, storeDistinto]

theorem reservaKeys_updateEstado (db : Db) (id : Nat) (e : Estado) (hk : ReservaKeys db) :
    ReservaKeys (updateEstado db id e) := by
  unfold ReservaKeys at *
  have hids : (updateEstado db id e).reservas.map (fun r => r.id) =
      db.reservas.map (fun r => r.id) := by
    simp only [updateEstado, List.map_map]
    apply List.map_congr_left
    intro x _
    by_cases hx : x.id = id <;> simp [hx]
  rw [hids]
  exact hk

theorem updateEstado_idem (db : Db) (id : Nat) (e : Estado) :
    updateEstado (updateEstado db id e) id e = updateEstado db id e := by
  simp only [updateEstado, List.map_map]
  congr 1
  apply List.map_congr_left
  intro x _
  by_cases hx : x.id = id <;> simp [hx]

/-- C11: for a reservation whose box belongs to the store of the caller, whatever its
state, a validate request without failing statement answers 200 with the success
message and returns the state in which exactly the reservations of that id are set
to `retirado`; a second validate request on that state answers 200 with the same
message and returns that state unchanged; and the reservation is in it, `retirado`. -/
theorem validar_dos_veces (db : Db) (user : Payload) (id : Nat) (r : Reserva) (b : Box)
    (s : Nat) (hrk : ReservaKeys db) (hbk : BoxKeys db) (hr : r ∈ db.reservas)
    (hid : r.id = id) (hb : b ∈ db.boxes) (hbox : b.id = r.box_id)
    (hbs : b.store_id = some s) (hstore : user.store_id = StoreRef.num s) :
    validarReserva none db user id =
      ({ boxes := db.boxes,
         reservas := db.reservas.map
            (fun x => if x.id = id then { x with estado := Estado.retirado } else x),
         stores := db.stores,
         nextReservaId := db.nextReservaId },
       ⟨200, ResBody.message "Reserva validada y marcada como retirada"⟩) ∧
    validarReserva none (validarReserva none db user id).1 user id =
      ((validarReserva none db user id).1,
       ⟨200, ResBody.message "Reserva validada y marcada como retirada"⟩) ∧
    ({ r with estado := Estado.retirado } : Reserva) ∈
      (validarReserva none db user id).1.reservas := by
  subst hid
  have h1 := validarReserva_of_mem db user r b s hrk hbk hr hb hbox hbs hstore
  have hr1 : ({ r with estado := Estado.retirado } : Reserva) ∈
      (updateEstado db r.id Estado.retirado).reservas := by
    simp only [updateEstado, List.mem_map]
    exact ⟨r, hr, by simp⟩
  have h2 := validarReserva_of_mem (updateEstado db r.id Estado.retirado) user
    { r with estado := Estado.retirado } b s
    (reservaKeys_updateEstado db r.id Estado.retirado hrk) hbk hr1 hb hbox hbs hstore
  simp only [updateEstado_idem] at h2
  rw [h1]
  exact ⟨rfl, h2, hr1⟩

/-- Instance of C11: the owner of store 1 validates the cancelled reservation 1 twice. -/
theorem validar_dos_veces_witness :
    validarReserva none dbCancelada ⟨2, "store", StoreRef.num 1⟩ 1 =
      ({ boxes := dbCancelada.boxes,
         reservas := dbCancelada.reservas.map
            (fun x => if x.id = 1 then { x with estado := Estado.retirado } else x),
         stores := dbCancelada.stores,
         nextReservaId := dbCancelada.nextReservaId },
       ⟨200, ResBody.message "Reserva validada y marcada como retirada"⟩) ∧
    validarReserva none (validarReserva none dbCancelada ⟨2, "store", StoreRef.num 1⟩ 1).1
        ⟨2, "store", StoreRef.num 1⟩ 1 =
      ((validarReserva none dbCancelada ⟨2, "store", StoreRef.num 1⟩ 1).1,
       ⟨200, ResBody.message "Reserva validada y marcada como retirada"⟩) ∧
    ({ (⟨1, 1, 1, "10-11", "1-1-5", Estado.cancelado⟩ : Reserva) with
        estado := Estado.retirado } : Reserva) ∈
      (validarReserva none dbCancelada ⟨2, "store", StoreRef.num 1⟩ 1).1.reservas :=
  validar_dos_veces dbCancelada ⟨2, "store", StoreRef.num 1⟩ 1
    ⟨1, 1, 1, "10-11", "1-1-5", Estado.cancelado⟩ (Box.mk 1 (some 1) 1) 1
    (show ReservaKeys dbCancelada by unfold ReservaKeys; decide)
    (show BoxKeys dbCancelada by unfold BoxKeys; decide) (by decide) rfl (by decide) rfl
    rfl rfl

/-! ## Access decision of the auth middleware -/

theorem resolveStore_role (db : Db) (lookupFails : Bool) (payload user : Payload)
    (h : resolveStore db lookupFails payload = some user) : user.role = payload.role := by
  unfold resolveStore at h
  split at h
  · split at h
    · simp at h
    · split at h
      · simp only [Option.some.injEq] at h; rw [← h]
      · simp only [Option.some.injEq] at h; rw [← h]
  · simp only [Option.some.injEq] at h; rw [← h]

theorem resolveStore_eq_none_iff (db : Db) (lookupFails : Bool) (payload : Payload) :
    resolveStore db lookupFails payload = none ↔
      (payload.role = "store" ∧ falsyRef payload.store_id = true ∧ lookupFails = true) := by
  unfold resolveStore
  by_cases hc : payload.role = "store" ∧ falsyRef payload.store_id = true
  · rw [if_pos hc]
    cases lookupFails with
    | true => simp [hc.1, hc.2]
    | false =>
      cases selectStoreIds db payload.id <;> simp
  · rw [if_neg hc]
    constructor
    · intro h; simp at h
    · rintro ⟨h1, h2, _⟩; exact absurd ⟨h1, h2⟩ hc

theorem auth_of_credential_none (verify : String → Option Payload) (roleAllowed : List String)
    (db : Db) (lookupFails : Bool) (header : Option String)
    (hcred : header.bind (fun h => (bearerToken h).bind verify) = none) :
    ∃ body, auth verify roleAllowed db lookupFails header = Except.error ⟨401, body⟩ := by
  cases header with
  | none => exact ⟨_, rfl⟩
  | some h =>
    simp only [Option.some_bind] at hcred
    by_cases he : h = ""
    · exact ⟨ResBody.error "Token no proporcionado", by simp [auth, he]⟩
    · exact ⟨ResBody.error "Token inválido o expirado", by simp [auth, he, hcred]⟩

theorem auth_of_credential_some (verify : String → Option Payload) (roleAllowed : List String)
    (db : Db) (lookupFails : Bool) (header : Option String) (payload : Payload)
    (hcred : header.bind (fun h => (bearerToken h).bind verify) = some payload) :
    auth verify roleAllowed db lookupFails header =
      match resolveStore db lookupFails payload with
      | none => Except.error ⟨401, ResBody.error "Token inválido o expirado"⟩
      | some user =>
        if roleAllowed ≠ [] ∧ payload.role ∉ roleAllowed then
          Except.error ⟨403, ResBody.error "No tienes permisos"⟩
        else Except.ok user := by
  cases header with
  | none => simp at hcred
  | some h =>
    simp only [Option.some_bind] at hcred
    have he : h ≠ "" := by
      intro he
      subst he
      have hnone : bearerToken "" = none := by decide
      rw [hnone] at hcred
      simp at hcred
    cases hres : resolveStore db lookupFails payload with
    | none => simp [auth, he, hcred, hres]
    | some user =>
      have hrole := resolveStore_role db lookupFails payload user hres
      simp [auth, he, hcred, hres, hrole]

/-- C12, counterexample: with an empty allow-list a verified principal passes to the
handler although its role is not a member of the list; a store-role principal
without store id whose user owns no store passes with no store attached; and when
the store lookup throws, a request with a header and a verified credential is
answered 401. -/
theorem auth_lista_vacia :
    verifyDemo "u" = some ⟨1, "user", StoreRef.null⟩ ∧
    ¬ "user" ∈ ([] : List String) ∧
    auth verifyDemo [] dbDemo false (some "Bearer u") =
      Except.ok ⟨1, "user", StoreRef.null⟩ ∧
    verifyDemo "s" = some ⟨2, "store", StoreRef.null⟩ ∧
    auth verifyDemo ["store"] dbSinTienda false (some "Bearer s") =
      Except.ok ⟨2, "store", StoreRef.null⟩ ∧
    auth verifyDemo ["store"] dbDemo true (some "Bearer s") =
      Except.error ⟨401, ResBody.error "Token inválido o expirado"⟩ :=
  ⟨by decide, by decide, rfl, by decide, rfl, rfl⟩

/-- C12 (amended): with the credential of a request being the verified token of its
Authorization header, and the store lookup running for a store-role principal
whose `store_id` is absent, `null` or 0: `auth` answers 401 exactly when the header
is missing, the credential fails verification, or that lookup runs and throws; it
answers 403 exactly when the credential verifies, no lookup throws, the allow-list is
not empty and the role of the principal is not in it; otherwise it passes the
principal to the handler.  The principal passed is the verified one, except that
when the lookup runs and finds stores of that user, the id of the first one is
attached as `store_id`; when it finds none, nothing is attached. -/
theorem auth_decision (verify : String → Option Payload) (roleAllowed : List String)
    (db : Db) (lookupFails : Bool) (header : Option String) :
    ((∃ body, auth verify roleAllowed db lookupFails header = Except.error ⟨401, body⟩) ↔
      (header = none ∨ header.bind (fun h => (bearerToken h).bind verify) = none ∨
        ∃ payload, header.bind (fun h => (bearerToken h).bind verify) = some payload ∧
          payload.role = "store" ∧ falsyRef payload.store_id = true ∧
          lookupFails = true)) ∧
    ((∃ body, auth verify roleAllowed db lookupFails header = Except.error ⟨403, body⟩) ↔
      ∃ payload, header.bind (fun h => (bearerToken h).bind verify) = some payload ∧
        ¬ (payload.role = "store" ∧ falsyRef payload.store_id = true ∧
          lookupFails = true) ∧
        roleAllowed ≠ [] ∧ payload.role ∉ roleAllowed) ∧
    (∀ payload user : Payload,
      header.bind (fun h => (bearerToken h).bind verify) = some payload →
      resolveStore db lookupFails payload = some user →
      ¬ (roleAllowed ≠ [] ∧ payload.role ∉ roleAllowed) →
      auth verify roleAllowed db lookupFails header = Except.ok user) ∧
    (∀ payload : Payload, resolveStore db lookupFails payload = none ↔
      (payload.role = "store" ∧ falsyRef payload.store_id = true ∧ lookupFails = true)) ∧
    (∀ (payload : Payload) (sid : Nat) (rest : List Nat), payload.role = "store" →
      falsyRef payload.store_id = true → lookupFails = false →
      selectStoreIds db payload.id = sid :: rest →
      resolveStore db lookupFails payload =
        some { payload with store_id := StoreRef.num sid }) ∧
    (∀ payload : Payload, payload.role = "store" →
      falsyRef payload.store_id = true → lookupFails = false →
      selectStoreIds db payload.id = [] →
      resolveStore db lookupFails payload = some payload) ∧
    (∀ payload : Payload,
      ¬ (payload.role = "store" ∧ falsyRef payload.store_id = true) →
      resolveStore db lookupFails payload = some payload) := by
  refine ⟨?_, ?_, ?_, ?_, ?_, ?_, ?_⟩
  · constructor
    · rintro ⟨body, h⟩
      right
      cases hcred : header.bind (fun h => (bearerToken h).bind verify) with
      | none => exact Or.inl rfl
      | some payload =>
        right
        refine ⟨payload, rfl, ?_⟩
        rw [auth_of_credential_some verify roleAllowed db lookupFails header payload hcred] at h
        cases hres : resolveStore db lookupFails payload with
        | none => exact (resolveStore_eq_none_iff db lookupFails payload).mp hres
        | some user =>
          rw [hres] at h
          simp only at h
          split at h <;> simp at h
    · intro h
      rcases h with h | h | ⟨payload, hcred, hlook⟩
      · apply auth_of_credential_none
        rw [h]; rfl
      · exact auth_of_credential_none verify roleAllowed db lookupFails header h
      · rw [auth_of_credential_some verify roleAllowed db lookupFails header payload hcred,
          (resolveStore_eq_none_iff db lookupFails payload).mpr hlook]
        exact ⟨_, rfl⟩
  · constructor
    · rintro ⟨body, h⟩
      cases hcred : header.bind (fun h => (bearerToken h).bind verify) with
      | none =>
        obtain ⟨b401, h401⟩ :=
          auth_of_credential_none verify roleAllowed db lookupFails header hcred
        rw [h401] at h
        simp at h
      | some payload =>
        refine ⟨payload, rfl, ?_⟩
        rw [auth_of_credential_some verify roleAllowed db lookupFails header payload hcred] at h
        cases hres : resolveStore db lookupFails payload with
        | none =>
          rw [hres] at h
          simp at h
        | some user =>
          rw [hres] at h
          simp only at h
          refine ⟨?_, ?_⟩
          · intro hlook
            rw [(resolveStore_eq_none_iff db lookupFails payload).mpr hlook] at hres
            simp at hres
          · by_contra hnot
            rw [if_neg hnot] at h
            simp at h
    · rintro ⟨payload, hcred, hlook, hrole⟩
      rw [auth_of_credential_some verify roleAllowed db lookupFails header payload hcred]
      cases hres : resolveStore db lookupFails payload with
      | none => exact absurd ((resolveStore_eq_none_iff db lookupFails payload).mp hres) hlook
      | some user =>
        simp only
        rw [if_pos hrole]
        exact ⟨_, rfl⟩
  · intro payload user hcred hres hnot
    rw [auth_of_credential_some verify roleAllowed db lookupFails header payload hcred, hres]
    simp only
    rw [if_neg hnot]
  · intro payload
    exact resolveStore_eq_none_iff db lookupFails payload
  · intro payload sid rest hrole hfalsy hlook hsel
    simp [resolveStore, hrole, hfalsy, hlook, hsel]
  · intro payload hrole hfalsy hlook hsel
    simp [resolveStore, hrole, hfalsy, hlook, hsel]
  · intro payload hnot
    unfold resolveStore
    rw [if_neg hnot]

/-- Instances of C12 on the sample databases: the store owner passes `auth(["store"])`
with store 1 attached; without store rows nothing is attached; a user principal is
passed as verified; and a throwing lookup gives no principal. -/
theorem auth_decision_witness :
    auth verifyDemo ["store"] dbDemo false (some "Bearer s") =
        Except.ok ⟨2, "store", StoreRef.num 1⟩ ∧
    resolveStore dbDemo false ⟨2, "store", StoreRef.null⟩ =
        some ⟨2, "store", StoreRef.num 1⟩ ∧
    resolveStore dbSinTienda false ⟨2, "store", StoreRef.null⟩ =
        some ⟨2, "store", StoreRef.null⟩ ∧
    resolveStore dbDemo false ⟨1, "user", StoreRef.null⟩ =
        some ⟨1, "user", StoreRef.null⟩ :=
  ⟨(auth_decision verifyDemo ["store"] dbDemo false (some "Bearer s")).2.2.1
      ⟨2, "store", StoreRef.null⟩ ⟨2, "store", StoreRef.num 1⟩
      (by decide) (by decide) (by decide),
   (auth_decision verifyDemo ["store"] dbDemo false (some "Bearer s")).2.2.2.2.1
      ⟨2, "store", StoreRef.null⟩ 1 [] rfl rfl rfl (by decide),
   (auth_decision verifyDemo ["store"] dbSinTienda false (some "Bearer s")).2.2.2.2.2.1
      ⟨2, "store", StoreRef.null⟩ rfl rfl rfl (by decide),
   (auth_decision verifyDemo ["store"] dbDemo false (some "Bearer s")).2.2.2.2.2.2
      ⟨1, "user", StoreRef.null⟩ (by decide)⟩

/-! ## Stock stays non-negative along a run -/

theorem crearReserva_stock_cases (fault : Fault) (now : Nat) (db : Db) (user : Payload)
    (body : ReqBody) :
    (crearReserva fault now db user body).1 = db ∨
    ∃ (bid : Nat) (franja qr : String) (stock : Int) (rest : List Int),
      selectStock db bid = stock :: rest ∧ 0 < stock ∧
      (crearReserva fault now db user body).1 =
        updateStock (insertReserva db user.id bid franja qr).1 bid (-1) := by
  unfold crearReserva crearTx query
  by_cases hf : (falsyNum body.box_id || falsyStr body.franja_horaria) = true
  · simp [hf]
  · by_cases h0 : fault = some 0
    · simp [hf, h0]
    · cases hsel : selectStock db (body.box_id.getD 0) with
      | nil => simp [hf, h0, hsel]
      | cons stock rest =>
        by_cases hs : stock ≤ 0
        · simp [hf, h0, hsel, hs]
        · by_cases h1 : fault = some 1
          · simp [hf, h0, hsel, hs, h1]
          · by_cases h2 : fault = some 2
            · simp [hf, h0, hsel, hs, h2]
            · right
              refine ⟨body.box_id.getD 0, body.franja_horaria.getD "",
                qrPayload user.id (body.box_id.getD 0) now, stock, rest, hsel,
                not_le.mp hs, ?_⟩
              simp [hf, h0, hsel, hs, h1, h2]

theorem validarReserva_db_cases (fault : Fault) (db : Db) (user : Payload) (id : Nat) :
    (validarReserva fault db user id).1 = db ∨
    (validarReserva fault db user id).1 = updateEstado db id Estado.retirado := by
  unfold validarReserva query
  by_cases h0 : fault = some 0
  · simp [h0]
  · cases hsel : selectReservaStore db id with
    | nil => simp [h0]
    | cons row rest =>
      by_cases hst : storeDistinto row.2 user.store_id = true
      · simp [h0, hst]
      · by_cases h1 : fault = some 1
        · simp [h0, hst, h1]
        · simp [h0, hst, h1]

theorem boxKeys_updateStock (db : Db) (bid : Nat) (delta : Int) (hk : BoxKeys db) :
    BoxKeys (updateStock db bid delta) := by
  unfold BoxKeys at *
  have hids : (updateStock db bid delta).boxes.map (fun b => b.id) =
      db.boxes.map (fun b => b.id) := by
    simp only [updateStock, List.map_map]
    apply List.map_congr_left
    intro x _
    by_cases hx : x.id = bid <;> simp [hx]
  rw [hids]
  exact hk

theorem stock_nonneg_decrement (db : Db) (bid : Nat) (stock : Int) (rest : List Int)
    (hk : BoxKeys db) (h0 : ∀ b ∈ db.boxes, 0 ≤ b.stock)
    (hsel : selectStock db bid = stock :: rest) (hpos : 0 < stock) :
    ∀ b ∈ (updateStock db bid (-1)).boxes, 0 ≤ b.stock := by
  intro b hb
  simp only [updateStock, List.mem_map] at hb
  obtain ⟨x, hx, hxb⟩ := hb
  by_cases hid : x.id = bid
  · rw [if_pos hid] at hxb
    have hone := selectStock_of_mem db x hk hx
    rw [hid, hsel] at hone
    have hxs : stock = x.stock := by
      have := List.cons.inj hone
      exact this.1
    rw [← hxb]
    show 0 ≤ x.stock + (-1)
    omega
  · rw [if_neg hid] at hxb
    rw [← hxb]
    exact h0 x hx

theorem stock_nonneg_increment (db : Db) (bid : Nat)
    (h0 : ∀ b ∈ db.boxes, 0 ≤ b.stock) :
    ∀ b ∈ (updateStock db bid 1).boxes, 0 ≤ b.stock := by
  intro b hb
  simp only [updateStock, List.mem_map] at hb
  obtain ⟨x, hx, hxb⟩ := hb
  have hx0 := h0 x hx
  by_cases hid : x.id = bid
  · rw [if_pos hid] at hxb
    rw [← hxb]
    show 0 ≤ x.stock + 1
    omega
  · rw [if_neg hid] at hxb
    rw [← hxb]
    exact hx0

theorem step_stock_nonneg (verify : String → Option Payload) (db : Db) (req : Request)
    (hk : BoxKeys db) (h0 : ∀ b ∈ db.boxes, 0 ≤ b.stock) :
    BoxKeys (step verify db req).1 ∧ ∀ b ∈ (step verify db req).1.boxes, 0 ≤ b.stock := by
  cases req with
  | crear header body now fault lookupFails =>
    simp only [step]
    rcases route_cases verify ["user"] db lookupFails header
        (fun user => crearReserva fault now db user body) with h | ⟨user, h⟩
    · rw [h]; exact ⟨hk, h0⟩
    · rw [h]
      rcases crearReserva_stock_cases fault now db user body with
        h1 | ⟨bid, franja, qr, stock, rest, hsel, hpos, h1⟩
      · rw [h1]; exact ⟨hk, h0⟩
      · rw [h1]
        exact ⟨boxKeys_updateStock (insertReserva db user.id bid franja qr).1 bid (-1) hk,
          stock_nonneg_decrement (insertReserva db user.id bid franja qr).1 bid stock rest
            hk h0 hsel hpos⟩
  | validar header id fault lookupFails =>
    simp only [step]
    rcases route_cases verify ["store"] db lookupFails header
        (fun user => validarReserva fault db user id) with h | ⟨user, h⟩
    · rw [h]; exact ⟨hk, h0⟩
    · rw [h]
      rcases validarReserva_db_cases fault db user id with h1 | h1
      · rw [h1]; exact ⟨hk, h0⟩
      · rw [h1]; exact ⟨hk, h0⟩
  | cancelar header id fault lookupFails =>
    simp only [step]
    rcases route_cases verify ["user"] db lookupFails header
        (fun user => cancelarReserva fault db user id) with h | ⟨user, h⟩
    · rw [h]; exact ⟨hk, h0⟩
    · rw [h]
      rcases cancelarReserva_db_cases fault db user id with h1 | ⟨r, rest, _, h1⟩
      · rw [h1]; exact ⟨hk, h0⟩
      · rw [h1]
        exact ⟨boxKeys_updateStock (updateEstado db id Estado.cancelado) r.box_id 1 hk,
          stock_nonneg_increment (updateEstado db id Estado.cancelado) r.box_id h0⟩

theorem run_stock_nonneg (verify : String → Option Payload) :
    ∀ (reqs : List Request) (db : Db), BoxKeys db → (∀ b ∈ db.boxes, 0 ≤ b.stock) →
      ∀ b ∈ (run verify db reqs).boxes, 0 ≤ b.stock := by
  intro reqs
  induction reqs with
  | nil => intro db _ h0; exact h0
  | cons req reqs ih =>
    intro db hk h0
    have hstep := step_stock_nonneg verify db req hk h0
    exact ih (step verify db req).1 hstep.1 hstep.2

/-- C17: from a database state whose boxes all have stock at least 0, with box ids a
primary key, after every prefix of every sequence of create, validate and cancel
requests served one after another, by any callers and with any injected statement
failures, every box has stock at least 0. -/
theorem stock_no_negativo (verify : String → Option Payload) (db : Db)
    (reqs : List Request) (n : Nat) (hk : BoxKeys db) (h0 : ∀ b ∈ db.boxes, 0 ≤ b.stock) :
    ∀ b ∈ (run verify db (reqs.take n)).boxes, 0 ≤ b.stock :=
  run_stock_nonneg verify (reqs.take n) db hk h0

/-- Instance of C17: the sample database after a create and a cancel. -/
theorem stock_no_negativo_witness :
    (run verifyDemo dbDemo (crearYCancelar.take 2)).boxes.all
      (fun b => decide (0 ≤ b.stock)) = true :=
  List.all_eq_true.mpr (fun b hb => decide_eq_true
    (stock_no_negativo verifyDemo dbDemo crearYCancelar 2
      (show BoxKeys dbDemo by unfold BoxKeys; decide) (by decide) b hb))

/-! ## Race between two create requests -/

theorem crearReserva_eq_fases (fault : Fault) (now : Nat) (db : Db) (user : Payload)
    (body : ReqBody) :
    crearReserva fault now db user body =
      match crearChequeo fault now db user body with
      | Chequeo.responde res => (db, res)
      | Chequeo.pasa userId box_id franja_horaria qr =>
        crearTransaccion fault db userId box_id franja_horaria qr := by
  unfold crearReserva crearChequeo crearTransaccion
  by_cases hf : (falsyNum body.box_id || falsyStr body.franja_horaria) = true
  · simp [hf]
  · cases hq : query fault 0 (selectStock db (body.box_id.getD 0)) with
    | none => simp [hf, hq]
    | some rows =>
      cases rows with
      | nil => simp [hf, hq]
      | cons stock rest =>
        by_cases hs : stock ≤ 0
        · simp [hf, hq, hs]
        · simp [hf, hq, hs]

/-- C16: in the step model where a create request first runs its stock check and later
its transaction, there is an execution from a box with stock 1 in which two create
requests are both past the stock check at the same time, both are answered 200, and
the stock of the box ends at -1. -/
theorem carrera_stock_negativo :
    ∃ plan1 plan2 : List Nat,
      stockOf carreraDemo.db 1 = some 1 ∧
      (ejecutar carreraDemo plan1).hilos.map Hilo.esChequeado = [true, true] ∧
      (ejecutar carreraDemo (plan1 ++ plan2)).hilos.map Hilo.status = [some 200, some 200] ∧
      stockOf (ejecutar carreraDemo (plan1 ++ plan2)).db 1 = some (-1) :=
  ⟨[0, 1], [0, 1], by decide⟩

/-! ## Price of a box: creation and listings -/

/-- C13, failing input: store 1 submits a box with product 5 of store 2 (price 10,
quantity 1).  The stored and returned `precio_normal` is 0, while the line recorded
for the new box has current price 10 and quantity 1, so the sum over its lines is 10. -/
theorem crearCaja_producto_ajeno :
    (crearCaja catalogoAjeno (some 1) ⟨3, none, [⟨some 5, none, some 1⟩]⟩).2 =
      CajaRes.creada 1 "Caja creada correctamente" 0 ∧
    (crearCaja catalogoAjeno (some 1) ⟨3, none, [⟨some 5, none, some 1⟩]⟩).1.cajas =
      [⟨1, some 1, some 0, 3, none⟩] ∧
    (crearCaja catalogoAjeno (some 1) ⟨3, none, [⟨some 5, none, some 1⟩]⟩).1.box_products =
      [⟨1, 5, 1⟩] ∧
    sumaLineas (crearCaja catalogoAjeno (some 1) ⟨3, none, [⟨some 5, none, some 1⟩]⟩).1 1 =
      10 := by
  refine ⟨by decide, by decide, by decide, ?_⟩
  simp [sumaLineas, selectLineas, crearCaja, insertBoxProducts, catalogoAjeno, getProductId,
    falsyNum, cantidadO1]

theorem cuerpoPublic_eq_cuerpoTienda (acc : Catalogo × List CajaListada) (box : Caja) :
    cuerpoPublic acc box = cuerpoTienda acc box := by
  unfold cuerpoPublic cuerpoTienda
  cases box.precio_normal <;> simp [parseFloatO]

theorem marcar_nil (db : Catalogo) (cs : List Caja) : cs.map (marcar db []) = cs := by
  conv_rhs => rw [← List.map_id cs]
  apply List.map_congr_left
  intro c _
  simp [marcar]

theorem marcar_update (db : Catalogo) (ids : List Nat) (i : Nat) (cs : List Caja) :
    (cs.map (marcar db ids)).map
        (fun c => if c.id = i then
          { c with precio_normal := some (precioCalculado (selectLineas db i)) } else c) =
      cs.map (marcar db (ids ++ [i])) := by
  rw [List.map_map]
  apply List.map_congr_left
  intro c _
  by_cases hi : c.id = i
  · subst hi
    by_cases hs : c.id ∈ ids
    · simp [marcar, hs]
    · simp [marcar, hs]
  · by_cases hs : c.id ∈ ids
    · simp [marcar, hi, hs]
    · simp [marcar, hi, hs]

theorem foldl_cuerpoTienda (db : Catalogo) :
    ∀ (sel : List Caja) (ids : List Nat) (out : List CajaListada),
      sel.foldl cuerpoTienda ({ db with cajas := db.cajas.map (marcar db ids) }, out) =
        ({ db with cajas := db.cajas.map (marcar db (ids ++ idsSinPrecio sel)) },
          out ++ sel.map (fun b => ⟨b.id, some (match b.precio_normal with
            | some p => if p = 0 then precioCalculado (selectLineas db b.id) else p
            | none => precioCalculado (selectLineas db b.id))⟩)) := by
  intro sel
  induction sel with
  | nil => intro ids out; simp [idsSinPrecio]
  | cons b bs ih =>
    intro ids out
    rw [List.foldl_cons]
    cases hb : b.precio_normal with
    | none =>
      have hstep : cuerpoTienda ({ db with cajas := db.cajas.map (marcar db ids) }, out) b =
          ({ db with cajas := db.cajas.map (marcar db (ids ++ [b.id])) },
            out ++ [⟨b.id, some (precioCalculado (selectLineas db b.id))⟩]) := by
        simp only [cuerpoTienda, hb, parseFloatO, updatePrecioNormal]
        rw [← marcar_update db ids b.id db.cajas]
        rfl
      rw [hstep, ih]
      simp [idsSinPrecio, List.filter_cons, hb]
    | some p =>
      have hstep : cuerpoTienda ({ db with cajas := db.cajas.map (marcar db ids) }, out) b =
          ({ db with cajas := db.cajas.map (marcar db ids) },
            out ++ [⟨b.id, some (if p = 0 then precioCalculado (selectLineas db b.id)
              else p)⟩]) := by
        simp only [cuerpoTienda, hb, parseFloatO]
        rfl
      rw [hstep, ih]
      simp [idsSinPrecio, List.filter_cons, hb]

theorem marcar_con_precio (db : Catalogo) (sel : List Caja) (hk : CajaKeys db)
    (hsel : ∀ b ∈ sel, b ∈ db.cajas) :
    ∀ c ∈ db.cajas, c.precio_normal ≠ none → marcar db (idsSinPrecio sel) c = c := by
  intro c hc hprecio
  have hnot : c.id ∉ idsSinPrecio sel := by
    intro hmem
    simp only [idsSinPrecio, List.mem_map, List.mem_filter] at hmem
    obtain ⟨b, ⟨hb, hnone⟩, hid⟩ := hmem
    have hfb := filter_key_eq_singleton (fun x : Caja => x.id) db.cajas b hk (hsel b hb)
    have hfc := filter_key_eq_singleton (fun x : Caja => x.id) db.cajas c hk hc
    simp only [hid] at hfb
    rw [hfb] at hfc
    have hbc : b = c := by simpa using hfc
    subst hbc
    cases hp : b.precio_normal with
    | none => exact hprecio hp
    | some p => rw [hp] at hnone; simp at hnone
  simp [marcar, hnot]

theorem listado_cuerpoTienda (db : Catalogo) (sel : List Caja) (hk : CajaKeys db)
    (hsel : ∀ b ∈ sel, b ∈ db.cajas) :
    ListadoCache db sel (sel.foldl cuerpoTienda (db, [])) := by
  have hdb : db = { db with cajas := db.cajas.map (marcar db []) } := by
    rw [marcar_nil]
  have hfold := foldl_cuerpoTienda db sel [] []
  rw [← hdb] at hfold
  rw [hfold]
  exact ⟨by simp, by simp, marcar_con_precio db sel hk hsel⟩

/-- C14, counterexample: box 1 has the non-null stored `precio_normal` 0 and a line of
two units at price 10: the three listings report 20 for it, not the stored value.
Box 2 has no stored price and a line of quantity 0 at price 10: the listing reports
10, while the sum of price times quantity over its lines is 0. -/
theorem listado_precio_cero :
    catalogoCero.cajas.map (fun c => (c.id, c.precio_normal)) = [(1, some 0), (2, none)] ∧
    (boxesPublic 0 catalogoCero).2 = [⟨1, some 20⟩, ⟨2, some 10⟩] ∧
    (boxesTienda (some 1) catalogoCero).2 = [⟨1, some 20⟩, ⟨2, some 10⟩] ∧
    (storeBoxes (some 1) catalogoCero).2 = [⟨1, some 20⟩, ⟨2, some 10⟩] ∧
    sumaLineas catalogoCero 2 = 0 := by
  refine ⟨by decide, ?_, ?_, ?_, ?_⟩
  · simp [boxesPublic, selectPublic, catalogoCero, cuerpoPublic, precioCalculado, selectLineas,
      parseFloatO, cantidadO1, updatePrecioNormal]
    norm_num
  · simp [boxesTienda, selectDeTienda, catalogoCero, cuerpoTienda, precioCalculado,
      selectLineas, parseFloatO, cantidadO1, updatePrecioNormal]
    norm_num
  · simp [storeBoxes, falsyNum, selectDeTienda, catalogoCero, cuerpoTienda, precioCalculado,
      selectLineas, parseFloatO, cantidadO1, updatePrecioNormal]
    norm_num
  · simp [sumaLineas, selectLineas, catalogoCero]

/-- C14 (amended): with box ids a primary key, each of the three listings returns one
element per selected box, reporting the stored `precio_normal` when it is neither
NULL nor zero and otherwise the sum, over the lines of the box, of current price
times quantity with a zero quantity counted as 1; it writes that sum to exactly the
selected boxes whose stored value is NULL, and leaves every row with a non-null
stored value as it was. -/
theorem listados_cache (now : Nat) (storeId : Option Nat) (db : Catalogo)
    (hk : CajaKeys db) :
    ListadoCache db (selectPublic now db) (boxesPublic now db) ∧
    ListadoCache db (selectDeTienda storeId db) (boxesTienda storeId db) ∧
    ListadoCache db (if falsyNum storeId then [] else selectDeTienda storeId db)
      (storeBoxes storeId db) := by
  refine ⟨?_, ?_, ?_⟩
  · have hfun : cuerpoPublic = cuerpoTienda := by
      funext acc box
      exact cuerpoPublic_eq_cuerpoTienda acc box
    unfold boxesPublic
    rw [hfun]
    exact listado_cuerpoTienda db _ hk (fun b hb => (List.mem_filter.mp hb).1)
  · unfold boxesTienda
    exact listado_cuerpoTienda db _ hk (fun b hb => (List.mem_filter.mp hb).1)
  · unfold storeBoxes
    by_cases hf : falsyNum storeId = true
    · rw [if_pos hf, if_pos hf]
      exact listado_cuerpoTienda db [] hk (fun b hb => absurd hb (List.not_mem_nil b))
    · rw [if_neg hf, if_neg hf]
      exact listado_cuerpoTienda db _ hk (fun b hb => (List.mem_filter.mp hb).1)

/-- Instance of C14 on the sample catalog. -/
theorem listados_cache_witness :
    ListadoCache catalogoCero (selectPublic 0 catalogoCero) (boxesPublic 0 catalogoCero) ∧
    ListadoCache catalogoCero (selectDeTienda (some 1) catalogoCero)
      (boxesTienda (some 1) catalogoCero) ∧
    ListadoCache catalogoCero
      (if falsyNum (some 1) then [] else selectDeTienda (some 1) catalogoCero)
      (storeBoxes (some 1) catalogoCero) :=
  listados_cache 0 (some 1) catalogoCero (show CajaKeys catalogoCero by unfold CajaKeys; decide)

/-! ## Roles of the stored users -/

theorem rolesOk_insertUser (rolAdmitido : String → Bool) (st st1 : Cuentas)
    (nombre email : Option String) (contrasena rol : String) (insertId : Nat)
    (h : RolesOk st) (hrol : rol = "user" ∨ rol = "store" ∨ rol = "admin")
    (hins : insertUser rolAdmitido st nombre email contrasena rol = some (st1, insertId)) :
    RolesOk st1 := by
  unfold insertUser at hins
  split at hins
  · simp only [Option.some.injEq, Prod.mk.injEq] at hins
    obtain ⟨hst, _⟩ := hins
    rw [← hst]
    intro u hu
    simp only [List.mem_append, List.mem_singleton] at hu
    rcases hu with hu | hu
    · exact h u hu
    · rw [hu]; exact hrol
  · simp at hins

theorem rolesOk_insertStore (st : Cuentas) (user_id : Nat) (h : RolesOk st) :
    RolesOk (insertStore st user_id).1 := h

theorem rolesOk_register (rolAdmitido : String → Bool) (hash : String → String)
    (st : Cuentas) (body : RegisterBody) (h : RolesOk st)
    (hrol : insertUser rolAdmitido st body.nombre body.email
        (hash (body.contrasena.getD "")) (rolO body.rol) ≠ none →
      rolO body.rol = "user" ∨ rolO body.rol = "store" ∨ rolO body.rol = "admin") :
    RolesOk (register rolAdmitido hash st body).1 := by
  unfold register
  split
  · exact h
  · cases hpw : body.contrasena with
    | none => exact h
    | some pw =>
      simp only [hpw, Option.getD_some] at hrol ⊢
      cases hins : insertUser rolAdmitido st body.nombre body.email (hash pw)
          (rolO body.rol) with
      | none => exact h
      | some res =>
        obtain ⟨st1, insertId⟩ := res
        have hok : RolesOk st1 :=
          rolesOk_insertUser rolAdmitido st st1 body.nombre body.email (hash pw)
            (rolO body.rol) insertId h (hrol (by rw [hins]; simp)) hins
        simp only
        split
        · exact rolesOk_insertStore st1 insertId hok
        · exact hok

/-- C15, counterexample: with a `users` table that admits any role, a registration with
role `root` stores a user of that role next to the admin account. -/
theorem register_rol_arbitrario :
    cuentasDemo.users.map (fun u => u.rol) = ["admin"] ∧
    (register (fun _ => true) (fun pw => pw) cuentasDemo
      ⟨some "Eva", some "eva@rescuebox.test", some "secreto", some "root"⟩).1.users.map
        (fun u => u.rol) = ["admin", "root"] := by
  decide

/-- C15 (amended): if every stored user has a role among user, store and admin, this
still holds after any request to the store creation of the admin, after any
registration that supplies no role or one of the three roles, and after any
registration at all when the `users` table admits only the three roles.  A successful
registration without role stores the new user with role user and no store; a
successful registration with role store stores the new user with role store and
one new store owned by that user. -/
theorem roles_invariante (rolAdmitido : String → Bool) (hash : String → String)
    (st : Cuentas) (h : RolesOk st) :
    (∀ body : StoreBody, RolesOk (adminStores rolAdmitido hash st body).1) ∧
    (∀ body : RegisterBody,
      (body.rol = none ∨ body.rol = some "" ∨ body.rol = some "user" ∨
        body.rol = some "store" ∨ body.rol = some "admin") →
      RolesOk (register rolAdmitido hash st body).1) ∧
    ((∀ r : String, rolAdmitido r = true → r = "user" ∨ r = "store" ∨ r = "admin") →
      ∀ body : RegisterBody, RolesOk (register rolAdmitido hash st body).1) ∧
    (∀ (body : RegisterBody) (pw : String), (body.rol = none ∨ body.rol = some "") →
      selectUserIds st body.email = [] → body.contrasena = some pw →
      rolAdmitido "user" = true →
      register rolAdmitido hash st body =
        ({ st with
           users := st.users ++ [⟨st.nextUserId, body.nombre, body.email, hash pw, "user"⟩],
           nextUserId := st.nextUserId + 1 },
         CuentaRes.registrado st.nextUserId body.email "user")) ∧
    (∀ (body : RegisterBody) (pw : String), body.rol = some "store" →
      selectUserIds st body.email = [] → body.contrasena = some pw →
      rolAdmitido "store" = true →
      register rolAdmitido hash st body =
        ({ users := st.users ++ [⟨st.nextUserId, body.nombre, body.email, hash pw, "store"⟩],
           stores := st.stores ++ [⟨st.nextStoreId, st.nextUserId⟩],
           nextUserId := st.nextUserId + 1,
           nextStoreId := st.nextStoreId + 1 },
         CuentaRes.registrado st.nextUserId body.email "store")) := by
  refine ⟨?_, ?_, ?_, ?_, ?_⟩
  · intro body
    unfold adminStores
    split
    · exact h
    · cases hpw : body.contrasena with
      | none => exact h
      | some pw =>
        simp only
        cases hins : insertUser rolAdmitido st body.nombre_user body.email (hash pw)
            "store" with
        | none => exact h
        | some res =>
          obtain ⟨st1, userId⟩ := res
          exact rolesOk_insertStore st1 userId
            (rolesOk_insertUser rolAdmitido st st1 body.nombre_user body.email (hash pw)
              "store" userId h (Or.inr (Or.inl rfl)) hins)
  · intro body hrol
    apply rolesOk_register rolAdmitido hash st body h
    intro _
    rcases hrol with hr | hr | hr | hr | hr <;> rw [hr] <;> decide
  · intro hadm body
    apply rolesOk_register rolAdmitido hash st body h
    intro hne
    apply hadm
    unfold insertUser at hne
    by_contra hfalse
    simp [hfalse] at hne
  · intro body pw hrol hsel hpw hadm
    have hro : rolO body.rol = "user" := by
      rcases hrol with hr | hr <;> rw [hr] <;> decide
    have hns : ¬ body.rol = some "store" := by
      rcases hrol with hr | hr <;> rw [hr] <;> decide
    simp [register, hsel, hpw, hro, insertUser, hadm, hns]
  · intro body pw hrol hsel hpw hadm
    have hro : rolO (some "store") = "store" := by decide
    simp [register, hsel, hpw, hro, insertUser, hadm, hrol, insertStore]

/-- Instances of C15 on the sample accounts, with a table that admits any role. -/
theorem roles_invariante_witness :
    RolesOk (adminStores (fun _ => true) (fun pw => pw) cuentasDemo
      ⟨some "Eva", some "eva@rescuebox.test", some "secreto"⟩).1 ∧
    RolesOk (register (fun _ => true) (fun pw => pw) cuentasDemo
      ⟨some "Eva", some "eva@rescuebox.test", some "secreto", some "store"⟩).1 ∧
    register (fun _ => true) (fun pw => pw) cuentasDemo
        ⟨some "Eva", some "eva@rescuebox.test", some "secreto", none⟩ =
      ({ cuentasDemo with
         users := cuentasDemo.users ++
           [⟨cuentasDemo.nextUserId, some "Eva", some "eva@rescuebox.test", "secreto", "user"⟩],
         nextUserId := cuentasDemo.nextUserId + 1 },
       CuentaRes.registrado cuentasDemo.nextUserId (some "eva@rescuebox.test") "user") :=
  ⟨(roles_invariante (fun _ => true) (fun pw => pw) cuentasDemo
      (show RolesOk cuentasDemo by unfold RolesOk; decide)).1
      ⟨some "Eva", some "eva@rescuebox.test", some "secreto"⟩,
   (roles_invariante (fun _ => true) (fun pw => pw) cuentasDemo
      (show RolesOk cuentasDemo by unfold RolesOk; decide)).2.1
      ⟨some "Eva", some "eva@rescuebox.test", some "secreto", some "store"⟩
      (Or.inr (Or.inr (Or.inr (Or.inl rfl)))),
   (roles_invariante (fun _ => true) (fun pw => pw) cuentasDemo
      (show RolesOk cuentasDemo by unfold RolesOk; decide)).2.2.2.1
      ⟨some "Eva", some "eva@rescuebox.test", some "secreto", none⟩ "secreto"
      (Or.inl rfl) (by decide) rfl rfl⟩

/-! ## Price of a box made of products of the caller -/

theorem foldl_add_sum {α : Type} (f : α → ℚ) :
    ∀ (l : List α) (a : ℚ), l.foldl (fun t x => t + f x) a = a + (l.map f).sum := by
  intro l
  induction l with
  | nil => intro a; simp
  | cons x xs ih =>
    intro a
    rw [List.foldl_cons, ih, List.map_cons, List.sum_cons, add_assoc]

theorem calcularPrecioTotal_eq_sum (db : Catalogo) (productos : List ProductoReq)
    (storeId : Option Nat) :
    calcularPrecioTotal db productos storeId = (productos.map (aporte db storeId)).sum := by
  have hfun : (fun (total : ℚ) (prod : ProductoReq) =>
      if falsyNum (getProductId prod) then total
      else
        match selectPrecio db ((getProductId prod).getD 0) storeId with
        | [] => total
        | precio :: _ => total + parseFloatO (some precio) 0 * cantidadO1 prod.cantidad) =
      (fun total prod => total + aporte db storeId prod) := by
    funext total prod
    unfold aporte
    by_cases hf : falsyNum (getProductId prod) = true
    · simp [hf]
    · cases hsel : selectPrecio db ((getProductId prod).getD 0) storeId with
      | nil => simp [hf]
      | cons precio rest =>
        by_cases hp : precio = 0
        · simp [hf, parseFloatO, hp]
        · simp [hf, parseFloatO, hp]
  unfold calcularPrecioTotal
  rw [hfun, foldl_add_sum, zero_add]

theorem insertBoxProducts_eq (boxId : Nat) :
    ∀ (productos : List ProductoReq) (db : Catalogo),
      insertBoxProducts db boxId productos =
        { db with box_products := db.box_products ++ productos.filterMap (lineaDe boxId) } := by
  intro productos
  induction productos with
  | nil => intro db; simp [insertBoxProducts]
  | cons prod rest ih =>
    intro db
    unfold insertBoxProducts at ih ⊢
    rw [List.foldl_cons]
    by_cases hf : falsyNum (getProductId prod) = true
    · simp only [hf, if_true]
      rw [ih]
      simp [lineaDe, hf]
    · simp only [hf]
      rw [ih]
      simp [lineaDe, hf]

theorem suma_lineas_nuevas (db : Catalogo) (storeId : Option Nat) (boxId : Nat)
    (hk : ProductKeys db) :
    ∀ productos : List ProductoReq,
      (∀ prod ∈ productos, ∀ p ∈ db.products, some p.id = getProductId prod →
        some p.store_id = storeId) →
      ((((productos.filterMap (lineaDe boxId)).flatMap
          (fun bp => (db.products.filter (fun p => p.id == bp.product_id)).map
            (fun p => (p.precio, bp.cantidad)))).map (fun l => l.1 * l.2)).sum =
        (productos.map (aporte db storeId)).sum) := by
  intro productos
  induction productos with
  | nil => intro _; simp
  | cons prod rest ih =>
    intro hown
    have hrest := ih (fun q hq => hown q (List.mem_cons_of_mem _ hq))
    by_cases hf : falsyNum (getProductId prod) = true
    · have hl : lineaDe boxId prod = none := by simp [lineaDe, hf]
      have ha : aporte db storeId prod = 0 := by simp [aporte, hf]
      rw [List.filterMap_cons, hl, List.map_cons, List.sum_cons, ha, zero_add]
      exact hrest
    · have hl : lineaDe boxId prod =
          some ⟨boxId, (getProductId prod).getD 0, cantidadO1 prod.cantidad⟩ := by
        simp [lineaDe, hf]
      rw [List.filterMap_cons, hl]
      simp only [List.flatMap_cons, List.map_append, List.sum_append, List.map_cons,
        List.sum_cons]
      rw [hrest]
      congr 1
      obtain ⟨pid, hpid⟩ : ∃ pid, getProductId prod = some pid := by
        cases hg : getProductId prod with
        | none => rw [hg] at hf; simp [falsyNum] at hf
        | some pid => exact ⟨pid, rfl⟩
      have hsplit : selectPrecio db pid storeId =
          ((db.products.filter (fun p => p.id == pid)).filter
            (fun p => some p.store_id == storeId)).map (fun p => p.precio) := by
        simp only [selectPrecio, List.filter_filter]
        congr 2
        funext x
        exact Bool.and_comm _ _
      have hf2 : ¬ falsyNum (some pid) = true := by rw [← hpid]; exact hf
      unfold aporte
      simp only [hpid, hf2, Option.getD_some]
      rw [hsplit]
      cases hfil : db.products.filter (fun p => p.id == pid) with
      | nil => simp
      | cons p ps =>
        have hp : p ∈ db.products.filter (fun p => p.id == pid) := by
          rw [hfil]; exact List.mem_cons_self _ _
        obtain ⟨hpmem, hpidb⟩ := List.mem_filter.mp hp
        have hpideq : p.id = pid := beq_iff_eq.mp hpidb
        have hone := filter_key_eq_singleton (fun x : Product => x.id) db.products p hk hpmem
        simp only [hpideq] at hone
        rw [hone] at hfil
        have hps : ps = [] := by
          have := List.cons.inj hfil
          exact this.2.symm
        have hst : some p.store_id = storeId :=
          hown prod (List.mem_cons_self _ _) p hpmem (by rw [hpid, hpideq])
        subst hps
        simp [hst]

theorem crearCaja_precio_propio (db : Catalogo) (storeId : Option Nat) (body : CajaReq)
    (hk : ProductKeys db) (hne : body.productos ≠ [])
    (hfresh : ∀ bp ∈ db.box_products, bp.box_id ≠ db.nextCajaId)
    (hown : ∀ prod ∈ body.productos, ∀ p ∈ db.products, some p.id = getProductId prod →
      some p.store_id = storeId) :
    (crearCaja db storeId body).2 =
      CajaRes.creada db.nextCajaId "Caja creada correctamente"
        (sumaLineas (crearCaja db storeId body).1 db.nextCajaId) ∧
    (crearCaja db storeId body).1.cajas = db.cajas ++
      [⟨db.nextCajaId, storeId,
        some (sumaLineas (crearCaja db storeId body).1 db.nextCajaId),
        body.stock, body.fecha_vencimiento⟩] := by
  have hlen : ¬ body.productos.length = 0 := by
    intro h
    exact hne (List.length_eq_zero.mp h)
  have hdb : (crearCaja db storeId body).1 =
      { products := db.products,
        cajas := db.cajas ++ [⟨db.nextCajaId, storeId,
          some (calcularPrecioTotal db body.productos storeId), body.stock,
          body.fecha_vencimiento⟩],
        box_products := db.box_products ++
          body.productos.filterMap (lineaDe db.nextCajaId),
        nextCajaId := db.nextCajaId + 1 } := by
    simp only [crearCaja, hlen, if_false]
    rw [insertBoxProducts_eq]
  have hold : db.box_products.filter (fun bp => bp.box_id == db.nextCajaId) = [] := by
    rw [List.filter_eq_nil_iff]
    intro bp hbp hid
    exact hfresh bp hbp (beq_iff_eq.mp hid)
  have hnew : (body.productos.filterMap (lineaDe db.nextCajaId)).filter
      (fun bp => bp.box_id == db.nextCajaId) =
      body.productos.filterMap (lineaDe db.nextCajaId) := by
    rw [List.filter_eq_self]
    intro bp hbp
    obtain ⟨prod, _, hprod⟩ := List.mem_filterMap.mp hbp
    unfold lineaDe at hprod
    split at hprod
    · simp at hprod
    · simp only [Option.some.injEq] at hprod
      rw [← hprod]
      simp
  have hsuma : sumaLineas (crearCaja db storeId body).1 db.nextCajaId =
      calcularPrecioTotal db body.productos storeId := by
    rw [hdb, calcularPrecioTotal_eq_sum]
    unfold sumaLineas selectLineas
    simp only [List.filter_append, hold, hnew, List.nil_append]
    exact suma_lineas_nuevas db storeId db.nextCajaId hk body.productos hown
  rw [hsuma]
  constructor
  · simp [crearCaja, hlen]
  · rw [hdb]

end RescueBox
